import Mathlib

/-!
Verification development for the AquaBrain permit platform rules engine.

The definitions below are a shallow embedding of the Python sources
`src/ai-service/app/rules_engine.py` (the 20-rule catalog, the `RulesEngine`
dispatcher, and its summary generator) and the violation-aggregation fragment of
`src/ai-service/app/analysis_service.py` (`detect_violations`).

Modelling conventions:
* Python numbers are modelled as exact rationals (`ℚ`).
* A dataset is a nested record; every leaf that the source reads through
  `dict.get(key, default)` is an `Option` field, and each access site applies
  the very default the source uses there (missing key ≡ `none`).
* Python dicts whose emptiness or value set is observed (`required_setbacks`,
  `actual_setbacks`) are association lists.
* The numeric rendering inside f-string messages is abstracted by `fmtQ`;
  everything else about a message (its fixed text and which values are
  interpolated where) mirrors the source f-string.
* A rule evaluation that may raise is modelled as `Except String`: a raised
  exception with message `e` is `Except.error e`.  The engine's `try/except`
  containment is `dispatch`.
* The wall-clock `timestamp` field of the engine responses is omitted: it is
  I/O, outside the pure core being verified.
-/

/-- Truncating conversion, Python `int()` on a rational. -/
def pyInt (q : ℚ) : ℤ := if 0 ≤ q then ⌊q⌋ else ⌈q⌉

/-- Round-half-even of a rational to an integer, Python `round(x)`. -/
def pyRound (x : ℚ) : ℤ :=
  if x - ⌊x⌋ < 1/2 then ⌊x⌋
  else if 1/2 < x - ⌊x⌋ then ⌊x⌋ + 1
  else if ⌊x⌋ % 2 = 0 then ⌊x⌋ else ⌊x⌋ + 1

/-- Python `round(x, 2)`. -/
def round2 (x : ℚ) : ℚ := (pyRound (x * 100) : ℚ) / 100

/-- Python `round(x, 1)`, used by `{:.1f}` style evidence values. -/
def round1 (x : ℚ) : ℚ := (pyRound (x * 10) : ℚ) / 10

/-- Python `round(x, 4)`. -/
def round4 (x : ℚ) : ℚ := (pyRound (x * 10000) : ℚ) / 10000

/-- Abstract rendering of a number inside an f-string message. -/
def fmtQ (q : ℚ) : String := toString q

/-- Lookup with default, Python `dict.get(key, dflt)` over a literal table. -/
def lookupD {α : Type} (m : List (String × α)) (k : String) (dflt : α) : α :=
  match m.find? (fun p => p.1 == k) with
  | some p => p.2
  | none => dflt

/-- Lookup in an association list, Python `dict.get(key, 0)`. -/
def lookup0 (m : List (String × ℚ)) (k : String) : ℚ := lookupD m k 0

/-- Python `min(values)` guarded by the caller with a nonempty check. -/
def listMin : List ℚ → ℚ
  | [] => 0
  | x :: xs => xs.foldl min x

/-- ASCII lower-casing of a character. -/
def lcChar (c : Char) : Char :=
  if 65 ≤ c.toNat ∧ c.toNat ≤ 90 then Char.ofNat (c.toNat + 32) else c

/-- Python `str.lower()` (the source only feeds it ASCII category names). -/
def pyLower (s : String) : String := ⟨s.data.map lcChar⟩

/-- Python `enumerate`. -/
def enumFrom {α : Type} : ℕ → List α → List (ℕ × α)
  | _, [] => []
  | i, a :: as => (i, a) :: enumFrom (i + 1) as

/-- Python `enumerate(xs)`. -/
def pyEnum {α : Type} (l : List α) : List (ℕ × α) := enumFrom 0 l

/-- `RuleSeverity` enumeration of rules_engine.py. -/
inductive RuleSeverity where
  | critical
  | high
  | medium
  | low
  deriving DecidableEq, Repr

/-- The `.value` string of a severity, as exposed through `to_dict`. -/
def RuleSeverity.value : RuleSeverity → String
  | .critical => "critical"
  | .high => "high"
  | .medium => "medium"
  | .low => "low"

/-- `RuleCategory` enumeration of rules_engine.py. -/
inductive RuleCategory where
  | structural
  | zoning
  | safety
  | accessibility
  | environmental
  deriving DecidableEq, BEq, Repr

/-- The `.value` string of a category. -/
def RuleCategory.value : RuleCategory → String
  | .structural => "structural"
  | .zoning => "zoning"
  | .safety => "safety"
  | .accessibility => "accessibility"
  | .environmental => "environmental"

/-- A value stored in an evidence map (`Dict[str, Any]` in the source). -/
inductive EvValue where
  | num (q : ℚ)
  | str (s : String)
  | bool (b : Bool)
  | numList (l : List ℚ)
  deriving DecidableEq

/-- `ValidationResult` dataclass. -/
structure ValidationResult where
  rule_id : String
  passed : Bool
  violations : List String
  warnings : List String
  evidence : List (String × EvValue)
  severity : RuleSeverity
  deriving DecidableEq

/-- The dictionary form of a result, `ValidationResult.to_dict` (severity as string). -/
structure ResultDict where
  rule_id : String
  passed : Bool
  violations : List String
  warnings : List String
  evidence : List (String × EvValue)
  severity : String
  deriving DecidableEq

/-- `ValidationResult.to_dict`. -/
def ValidationResult.toDict (r : ValidationResult) : ResultDict :=
  { rule_id := r.rule_id
    passed := r.passed
    violations := r.violations
    warnings := r.warnings
    evidence := r.evidence
    severity := r.severity.value }

/-- `structural.foundation` sub-dictionary. -/
structure FoundationData where
  depth_m : Option ℚ := none
  soil_type : Option String := none
  bearing_capacity_kn_m2 : Option ℚ := none
  deriving DecidableEq

/-- One record of `structural.columns`. -/
structure ColumnData where
  id : Option String := none
  width_cm : Option ℚ := none
  depth_cm : Option ℚ := none
  deriving DecidableEq

/-- One record of `structural.beams`. -/
structure BeamData where
  id : Option String := none
  width_cm : Option ℚ := none
  height_cm : Option ℚ := none
  span_m : Option ℚ := none
  deriving DecidableEq

/-- One record of `structural.slabs`. -/
structure SlabData where
  id : Option String := none
  thickness_cm : Option ℚ := none
  span_m : Option ℚ := none
  type : Option String := none
  deriving DecidableEq

/-- `structural` section of the dataset. -/
structure StructuralData where
  dead_load_kn_m2 : Option ℚ := none
  live_load_kn_m2 : Option ℚ := none
  wind_load_kn_m2 : Option ℚ := none
  seismic_coefficient : Option ℚ := none
  foundation : FoundationData := {}
  columns : List ColumnData := []
  beams : List BeamData := []
  slabs : List SlabData := []
  deriving DecidableEq

/-- `building.parking` sub-dictionary. -/
structure ParkingData where
  total_spaces : Option ℚ := none
  accessible_spaces : Option ℚ := none
  deriving DecidableEq

/-- `building.safety.fire_suppression` sub-dictionary. -/
structure FireData where
  has_sprinkler_system : Option Bool := none
  has_fire_extinguishers : Option Bool := none
  has_fire_alarm : Option Bool := none
  has_fire_rated_elements : Option Bool := none
  deriving DecidableEq

/-- `building.safety.evacuation` sub-dictionary. -/
structure EvacData where
  num_emergency_exits : Option ℚ := none
  exit_widths_cm : List ℚ := []
  max_travel_distance_m : Option ℚ := none
  has_emergency_lighting : Option Bool := none
  deriving DecidableEq

/-- One record of `building.safety.stairways`. -/
structure StairwayData where
  id : Option String := none
  tread_depth_cm : Option ℚ := none
  riser_height_cm : Option ℚ := none
  width_cm : Option ℚ := none
  headroom_cm : Option ℚ := none
  landing_depth_cm : Option ℚ := none
  deriving DecidableEq

/-- `building.safety.railings` sub-dictionary. -/
structure RailingsData where
  balcony_height_cm : Option ℚ := none
  stair_height_cm : Option ℚ := none
  bar_spacing_cm : Option ℚ := none
  load_capacity_kn : Option ℚ := none
  has_roof_railing : Option Bool := none
  deriving DecidableEq

/-- `building.safety.emergency_lighting` sub-dictionary. -/
structure LightingData where
  has_system : Option Bool := none
  backup_duration_minutes : Option ℚ := none
  min_illumination_lux : Option ℚ := none
  has_exit_signs : Option Bool := none
  escape_route_coverage_percent : Option ℚ := none
  deriving DecidableEq

/-- `building.safety` sub-dictionary. -/
structure SafetyData where
  fire_suppression : FireData := {}
  evacuation : EvacData := {}
  stairways : List StairwayData := []
  railings : RailingsData := {}
  emergency_lighting : LightingData := {}
  deriving DecidableEq

/-- One record of `building.accessibility.ramps`. -/
structure RampData where
  id : Option String := none
  rise_m : Option ℚ := none
  rise_cm : Option ℚ := none
  run_m : Option ℚ := none
  run_cm : Option ℚ := none
  width_cm : Option ℚ := none
  run_length_m : Option ℚ := none
  has_landing : Option Bool := none
  has_handrails : Option Bool := none
  deriving DecidableEq

/-- One record of `building.accessibility.doors`. -/
structure DoorData where
  id : Option String := none
  type : Option String := none
  clear_width_cm : Option ℚ := none
  threshold_height_cm : Option ℚ := none
  maneuvering_space_cm : Option ℚ := none
  has_lever_handle : Option Bool := none
  is_fire_door : Option Bool := none
  has_auto_closer : Option Bool := none
  closing_force_n : Option ℚ := none
  deriving DecidableEq

/-- `building.accessibility.elevator` sub-dictionary. -/
structure ElevatorData where
  has_elevator : Option Bool := none
  car_width_cm : Option ℚ := none
  car_depth_cm : Option ℚ := none
  door_width_cm : Option ℚ := none
  door_open_time_seconds : Option ℚ := none
  has_braille_controls : Option Bool := none
  has_audio_announcements : Option Bool := none
  button_height_cm : Option ℚ := none
  deriving DecidableEq

/-- `building.accessibility` sub-dictionary. -/
structure AccessibilityData where
  ramps : List RampData := []
  doors : List DoorData := []
  elevator : ElevatorData := {}
  deriving DecidableEq

/-- `building.environmental.energy` sub-dictionary. -/
structure EnergyData where
  si5282_level : Option String := none
  wall_u_value : Option ℚ := none
  roof_u_value : Option ℚ := none
  window_u_value : Option ℚ := none
  has_solar_water_heating : Option Bool := none
  led_coverage_percent : Option ℚ := none
  renewable_capacity_kw : Option ℚ := none
  has_low_flow_fixtures : Option Bool := none
  deriving DecidableEq

/-- `building.environmental.acoustic` sub-dictionary. -/
structure AcousticData where
  wall_rw_db : Option ℚ := none
  floor_rw_db : Option ℚ := none
  floor_ln_db : Option ℚ := none
  facade_rw_db : Option ℚ := none
  window_rw_db : Option ℚ := none
  deriving DecidableEq

/-- `building.environmental` sub-dictionary. -/
structure EnvironmentalData where
  energy : EnergyData := {}
  acoustic : AcousticData := {}
  deriving DecidableEq

/-- `building` section of the dataset. -/
structure BuildingData where
  use_type : Option String := none
  num_floors : Option ℚ := none
  num_units : Option ℚ := none
  height_m : Option ℚ := none
  footprint_m2 : Option ℚ := none
  total_floor_area_m2 : Option ℚ := none
  residential_area_m2 : Option ℚ := none
  commercial_area_m2 : Option ℚ := none
  service_area_m2 : Option ℚ := none
  typical_floor_area_m2 : Option ℚ := none
  max_occupancy : Option ℚ := none
  has_roof_access : Option Bool := none
  has_level_changes : Option Bool := none
  setbacks : List (String × ℚ) := []
  parking : ParkingData := {}
  safety : SafetyData := {}
  accessibility : AccessibilityData := {}
  environmental : EnvironmentalData := {}
  deriving DecidableEq

/-- `plot` section of the dataset. -/
structure PlotData where
  area_m2 : Option ℚ := none
  required_setbacks : List (String × ℚ) := []
  max_height_m : Option ℚ := none
  max_floors : Option ℚ := none
  max_coverage_percent : Option ℚ := none
  max_far : Option ℚ := none
  deriving DecidableEq

/-- `location` section of the dataset. -/
structure LocationData where
  seismic_zone : Option String := none
  external_noise_db : Option ℚ := none
  deriving DecidableEq

/-- The full dataset handed to `validate`. -/
structure Dataset where
  building : BuildingData := {}
  plot : PlotData := {}
  structural : StructuralData := {}
  location : LocationData := {}
  deriving DecidableEq

/-- The empty mapping `{}` as a dataset: every key missing. -/
def Dataset.empty : Dataset := {}

/-- Python `str.capitalize()` (first char upper-cased, rest lower-cased). -/
def ucChar (c : Char) : Char :=
  if 97 ≤ c.toNat ∧ c.toNat ≤ 122 then Char.ofNat (c.toNat - 32) else c

/-- Python `str.capitalize()`. -/
def pyCapitalize (s : String) : String :=
  match s.data with
  | [] => ⟨[]⟩
  | c :: cs => ⟨ucChar c :: cs.map lcChar⟩

/-- Helper `verify_ramp_slope` of rules_engine.py. -/
def verify_ramp_slope (ramp_data : RampData) : ℚ :=
  let rise := ramp_data.rise_m.getD (ramp_data.rise_cm.getD 0 / 100)
  let run := ramp_data.run_m.getD (ramp_data.run_cm.getD 0 / 100)
  if run = 0 then 100.0
  else rise / run * 100

/-- Helper `calculate_parking_requirement` of rules_engine.py. -/
def calculate_parking_requirement (floor_area : ℚ) (use_type : String) (num_units : ℚ) : ℤ :=
  if use_type = "residential" then
    if num_units > 0 then pyInt (num_units * 1.2)
    else pyInt (floor_area / 100 * 1.2)
  else if use_type = "office" then pyInt (floor_area / 40)
  else if use_type = "commercial" ∨ use_type = "retail" then pyInt (floor_area / 40)
  else if use_type = "restaurant" then pyInt (floor_area / 20)
  else pyInt (floor_area / 50)

/-- Helper `check_parking_requirement` of rules_engine.py (delegates). -/
def check_parking_requirement (floor_area : ℚ) (use_type : String) (num_units : ℚ) : ℤ :=
  calculate_parking_requirement floor_area use_type num_units

/-- `ZonParking005._get_parking_standard`. -/
def ZonParking005.get_parking_standard (use_type : String) : String :=
  lookupD
    [("residential", "1.0-1.5 spaces per unit"),
     ("office", "1 space per 40m²"),
     ("commercial", "1 space per 50m²"),
     ("retail", "1 space per 30m²"),
     ("restaurant", "1 space per 20m²")]
    use_type "Standard rates per local ordinance"

/-- STR-LOAD-001: design loads verification (`StrLoad001.validate`). -/
def StrLoad001.validate (data : Dataset) : ValidationResult :=
  let structural_data := data.structural
  let dead_load := structural_data.dead_load_kn_m2.getD 0
  let live_load := structural_data.live_load_kn_m2.getD 0
  let building_use := data.building.use_type.getD "residential"
  let min_live_loads : List (String × ℚ) :=
    [("residential", 2.0), ("office", 2.5), ("commercial", 4.0),
     ("storage", 5.0), ("assembly", 5.0)]
  let min_live_load := lookupD min_live_loads building_use 2.0
  let wind_load := structural_data.wind_load_kn_m2.getD 0
  let seismic_zone := data.location.seismic_zone.getD ""
  let seismic_coefficient := structural_data.seismic_coefficient.getD 0
  let violations :=
    (if dead_load < 3.5 then
      ["Dead load " ++ fmtQ dead_load ++ " kN/m² is below minimum 3.5 kN/m² (SI 413)"] else [])
    ++ (if live_load < min_live_load then
      ["Live load " ++ fmtQ live_load ++ " kN/m² is below minimum " ++ fmtQ min_live_load
        ++ " kN/m² for " ++ building_use ++ " use (SI 413 Table 2)"] else [])
    ++ (if wind_load < 0.6 then
      ["Wind load " ++ fmtQ wind_load ++ " kN/m² is below minimum 0.6 kN/m² (SI 413)"] else [])
    ++ (if seismic_coefficient < 0.1 then
      ["Seismic coefficient " ++ fmtQ seismic_coefficient ++ " is below minimum 0.1 (SI 413)"] else [])
  let warnings :=
    (if ¬ (dead_load < 3.5) ∧ dead_load < 4.0 then
      ["Dead load " ++ fmtQ dead_load ++ " kN/m² is low, verify calculations"] else [])
  let evidence : List (String × EvValue) :=
    [("dead_load_kn_m2", .num dead_load), ("live_load_kn_m2", .num live_load),
     ("building_use", .str building_use), ("wind_load_kn_m2", .num wind_load),
     ("seismic_zone", .str seismic_zone), ("seismic_coefficient", .num seismic_coefficient)]
  { rule_id := "STR-LOAD-001", passed := violations.isEmpty, violations := violations,
    warnings := warnings, evidence := evidence, severity := .critical }

/-- STR-FOUND-002: foundation depth minimum (`StrFound002.validate`). -/
def StrFound002.validate (data : Dataset) : ValidationResult :=
  let foundation_data := data.structural.foundation
  let foundation_depth := foundation_data.depth_m.getD 0
  let soil_type := foundation_data.soil_type.getD ""
  let min_depths_by_soil : List (String × ℚ) :=
    [("rock", 0.8), ("gravel", 1.0), ("sand", 1.2), ("clay", 1.5), ("organic", 2.0)]
  let soil_known := (min_depths_by_soil.find? (fun p => p.1 == soil_type)).isSome
  let min_depth := lookupD min_depths_by_soil soil_type 0
  let bearing_capacity := foundation_data.bearing_capacity_kn_m2.getD 0
  let violations :=
    (if foundation_depth < 1.0 then
      ["Foundation depth " ++ fmtQ foundation_depth
        ++ "m is below minimum 1.0m (SI 466 Section 4.2)"] else [])
    ++ (if soil_known ∧ foundation_depth < min_depth then
      ["Foundation depth " ++ fmtQ foundation_depth ++ "m is below minimum " ++ fmtQ min_depth
        ++ "m for " ++ soil_type ++ " soil (SI 466)"] else [])
    ++ (if bearing_capacity < 100 then
      ["Bearing capacity " ++ fmtQ bearing_capacity
        ++ " kN/m² is below minimum 100 kN/m² (SI 466)"] else [])
  let warnings :=
    (if ¬ (foundation_depth < 1.0) ∧ foundation_depth < 1.2 then
      ["Foundation depth " ++ fmtQ foundation_depth
        ++ "m is minimal, consider deeper foundation"] else [])
    ++ (if ¬ soil_known then
      ["Soil type \x27" ++ soil_type ++ "\x27 not recognized, verify foundation depth"] else [])
  let evidence : List (String × EvValue) :=
    [("foundation_depth_m", .num foundation_depth), ("soil_type", .str soil_type)]
    ++ (if soil_known then [("min_depth_for_soil", .num min_depth)] else [])
    ++ [("bearing_capacity_kn_m2", .num bearing_capacity)]
  { rule_id := "STR-FOUND-002", passed := violations.isEmpty, violations := violations,
    warnings := warnings, evidence := evidence, severity := .critical }

/-- STR-COLUMN-003: column dimensions (`StrColumn003.validate`). -/
def StrColumn003.validate (data : Dataset) : ValidationResult :=
  let columns_data := data.structural.columns
  if columns_data.isEmpty then
    { rule_id := "STR-COLUMN-003", passed := false, violations := ["No column data provided"],
      warnings := [], evidence := [], severity := .critical }
  else
    let num_floors := data.building.num_floors.getD 1
    let min_area : ℚ := if num_floors > 3 then 900 else 625
    let items := pyEnum columns_data
    let violations := (items.map (fun p =>
      let column_id := p.2.id.getD ("Column-" ++ toString (p.1 + 1))
      let width := p.2.width_cm.getD 0
      let depth := p.2.depth_cm.getD 0
      let area_cm2 := width * depth
      (if width < 25 ∨ depth < 25 then
        [column_id ++ ": Dimension " ++ fmtQ width ++ "x" ++ fmtQ depth
          ++ "cm has side below minimum 25cm (SI 466 Section 7.4.1)"] else [])
      ++ (if area_cm2 < min_area then
        [column_id ++ ": Area " ++ fmtQ area_cm2 ++ "cm² is below minimum " ++ fmtQ min_area
          ++ "cm² for " ++ fmtQ num_floors ++ "-floor building (SI 466)"] else []))).flatten
    let warnings := (items.map (fun p =>
      let column_id := p.2.id.getD ("Column-" ++ toString (p.1 + 1))
      let width := p.2.width_cm.getD 0
      let depth := p.2.depth_cm.getD 0
      let aspect := if min width depth > 0 then max width depth / min width depth else 0
      (if aspect > 3.0 then
        [column_id ++ ": Aspect ratio " ++ fmtQ (round2 aspect)
          ++ " exceeds recommended 3.0, verify slenderness calculations"] else []))).flatten
    let evidence : List (String × EvValue) :=
      [("num_floors", .num num_floors)]
      ++ (items.map (fun p =>
        let column_id := p.2.id.getD ("Column-" ++ toString (p.1 + 1))
        let width := p.2.width_cm.getD 0
        let depth := p.2.depth_cm.getD 0
        let aspect := if min width depth > 0 then max width depth / min width depth else 0
        [(column_id ++ "_dimensions", EvValue.str (fmtQ width ++ "x" ++ fmtQ depth ++ "cm")),
         (column_id ++ "_aspect_ratio", EvValue.num (round2 aspect))])).flatten
    { rule_id := "STR-COLUMN-003", passed := violations.isEmpty, violations := violations,
      warnings := warnings, evidence := evidence, severity := .critical }

/-- STR-BEAM-004: beam dimensions (`StrBeam004.validate`). -/
def StrBeam004.validate (data : Dataset) : ValidationResult :=
  let beams_data := data.structural.beams
  if beams_data.isEmpty then
    { rule_id := "STR-BEAM-004", passed := false, violations := ["No beam data provided"],
      warnings := [], evidence := [], severity := .critical }
  else
    let items := pyEnum beams_data
    let violations := (items.map (fun p =>
      let beam_id := p.2.id.getD ("Beam-" ++ toString (p.1 + 1))
      let width := p.2.width_cm.getD 0
      let height := p.2.height_cm.getD 0
      let span := p.2.span_m.getD 0
      let min_height_cm := span * 100 / 12
      (if width < 20 then
        [beam_id ++ ": Width " ++ fmtQ width ++ "cm is below minimum 20cm (SI 466 Section 9.2.1)"]
       else [])
      ++ (if height < min_height_cm then
        [beam_id ++ ": Height " ++ fmtQ height ++ "cm is below minimum "
          ++ fmtQ (round1 min_height_cm) ++ "cm for span " ++ fmtQ span
          ++ "m (h ≥ span/12, SI 466)"] else []))).flatten
    let warnings := (items.map (fun p =>
      let beam_id := p.2.id.getD ("Beam-" ++ toString (p.1 + 1))
      let height := p.2.height_cm.getD 0
      let span := p.2.span_m.getD 0
      let min_height_cm := span * 100 / 12
      (if ¬ (height < min_height_cm) ∧ height < min_height_cm * 1.1 then
        [beam_id ++ ": Height " ++ fmtQ height ++ "cm is minimal for span " ++ fmtQ span
          ++ "m, recommend ≥" ++ fmtQ (round1 (min_height_cm * 1.1)) ++ "cm"] else [])
      ++ (if span > 8.0 then
        [beam_id ++ ": Span " ++ fmtQ span ++ "m exceeds recommended maximum " ++ fmtQ 8.0
          ++ "m, verify deflection calculations"] else []))).flatten
    let evidence : List (String × EvValue) := (items.map (fun p =>
      let beam_id := p.2.id.getD ("Beam-" ++ toString (p.1 + 1))
      let width := p.2.width_cm.getD 0
      let height := p.2.height_cm.getD 0
      let span := p.2.span_m.getD 0
      let min_height_cm := span * 100 / 12
      [(beam_id ++ "_dimensions",
        EvValue.str (fmtQ width ++ "x" ++ fmtQ height ++ "cm, span=" ++ fmtQ span ++ "m")),
       (beam_id ++ "_min_height_cm", EvValue.num (round1 min_height_cm))])).flatten
    { rule_id := "STR-BEAM-004", passed := violations.isEmpty, violations := violations,
      warnings := warnings, evidence := evidence, severity := .critical }

/-- STR-SLAB-005: slab thickness (`StrSlab005.validate`). -/
def StrSlab005.validate (data : Dataset) : ValidationResult :=
  let slabs_data := data.structural.slabs
  if slabs_data.isEmpty then
    { rule_id := "STR-SLAB-005", passed := false, violations := ["No slab data provided"],
      warnings := [], evidence := [], severity := .critical }
  else
    let items := pyEnum slabs_data
    let violations := (items.map (fun p =>
      let slab_id := p.2.id.getD ("Slab-" ++ toString (p.1 + 1))
      let thickness := p.2.thickness_cm.getD 0
      let span := p.2.span_m.getD 0
      let slab_type := p.2.type.getD "solid"
      let min_thickness_cm :=
        if slab_type = "solid" then span * 100 / 30
        else if slab_type = "ribbed" then span * 100 / 25
        else span * 100 / 30
      (if thickness < min_thickness_cm then
        [slab_id ++ ": Thickness " ++ fmtQ thickness ++ "cm is below minimum "
          ++ fmtQ (round1 min_thickness_cm) ++ "cm for " ++ slab_type ++ " slab with span "
          ++ fmtQ span ++ "m (SI 466)"] else [])
      ++ (if slab_type = "solid" ∧ thickness < 12 then
        [slab_id ++ ": Thickness " ++ fmtQ thickness
          ++ "cm is below absolute minimum 12cm for solid slab (SI 466 Section 9.3.1)"]
       else []))).flatten
    let warnings := (items.map (fun p =>
      let slab_id := p.2.id.getD ("Slab-" ++ toString (p.1 + 1))
      let thickness := p.2.thickness_cm.getD 0
      let span := p.2.span_m.getD 0
      (if thickness < 15 ∧ span > 4.0 then
        [slab_id ++ ": Thickness " ++ fmtQ thickness ++ "cm is thin for span " ++ fmtQ span
          ++ "m, verify deflection and vibration"] else []))).flatten
    let evidence : List (String × EvValue) := (items.map (fun p =>
      let slab_id := p.2.id.getD ("Slab-" ++ toString (p.1 + 1))
      let thickness := p.2.thickness_cm.getD 0
      let span := p.2.span_m.getD 0
      let slab_type := p.2.type.getD "solid"
      let min_thickness_cm :=
        if slab_type = "solid" then span * 100 / 30
        else if slab_type = "ribbed" then span * 100 / 25
        else span * 100 / 30
      [(slab_id ++ "_data",
        EvValue.str ("thickness=" ++ fmtQ thickness ++ "cm, span=" ++ fmtQ span
          ++ "m, type=" ++ slab_type)),
       (slab_id ++ "_min_thickness_cm", EvValue.num (round1 min_thickness_cm))])).flatten
    { rule_id := "STR-SLAB-005", passed := violations.isEmpty, violations := violations,
      warnings := warnings, evidence := evidence, severity := .critical }

/-- ZON-SETBACK-001: building setbacks from property line (`ZonSetback001.validate`). -/
def ZonSetback001.validate (data : Dataset) : ValidationResult :=
  let required_setbacks := data.plot.required_setbacks
  let actual_setbacks := data.building.setbacks
  let directions := ["north", "south", "east", "west", "front", "rear", "side"]
  let min_setback := if actual_setbacks.isEmpty then 0 else listMin (actual_setbacks.map Prod.snd)
  let violations := (directions.map (fun direction =>
      let required := lookup0 required_setbacks direction
      let actual := lookup0 actual_setbacks direction
      (if required > 0 ∧ actual < required then
        [pyCapitalize direction ++ " setback " ++ fmtQ actual ++ "m is below required "
          ++ fmtQ required ++ "m (shortage: " ++ fmtQ (required - actual) ++ "m) per TABA"]
       else []))).flatten
    ++ (if min_setback < 3.0 ∧ required_setbacks.isEmpty then
      ["Minimum setback " ++ fmtQ min_setback ++ "m is below default minimum "
        ++ fmtQ 3.0 ++ "m"] else [])
  let warnings := (directions.map (fun direction =>
      let required := lookup0 required_setbacks direction
      let actual := lookup0 actual_setbacks direction
      (if required > 0 ∧ ¬ (actual < required) ∧ actual < required + 0.5 then
        [pyCapitalize direction ++ " setback " ++ fmtQ actual ++ "m is minimal, only "
          ++ fmtQ (actual - required) ++ "m above required " ++ fmtQ required ++ "m"]
       else []))).flatten
  let evidence : List (String × EvValue) := (directions.map (fun direction =>
      let required := lookup0 required_setbacks direction
      let actual := lookup0 actual_setbacks direction
      (if required > 0 then
        [("setback_" ++ direction,
          EvValue.str ("required=" ++ fmtQ required ++ "m, actual=" ++ fmtQ actual ++ "m"))]
       else []))).flatten
    ++ [("minimum_setback", EvValue.str (fmtQ min_setback ++ "m"))]
  { rule_id := "ZON-SETBACK-001", passed := violations.isEmpty, violations := violations,
    warnings := warnings, evidence := evidence, severity := .critical }

/-- ZON-HEIGHT-002: maximum building height (`ZonHeight002.validate`). -/
def ZonHeight002.validate (data : Dataset) : ValidationResult :=
  let building_height := data.building.height_m.getD 0
  let max_height := data.plot.max_height_m.getD 0
  let num_floors := data.building.num_floors.getD 0
  let max_floors := data.plot.max_floors.getD 0
  let avg_floor_height := building_height / num_floors
  let violations :=
    (if max_height > 0 ∧ building_height > max_height then
      ["Building height " ++ fmtQ building_height ++ "m exceeds maximum " ++ fmtQ max_height
        ++ "m (excess: " ++ fmtQ (building_height - max_height) ++ "m) per TABA"] else [])
    ++ (if max_floors > 0 ∧ num_floors > max_floors then
      ["Number of floors " ++ fmtQ num_floors ++ " exceeds maximum " ++ fmtQ max_floors
        ++ " per TABA"] else [])
    ++ (if num_floors > 0 ∧ building_height > 0 ∧ avg_floor_height < 2.6 then
      ["Average floor height " ++ fmtQ (round2 avg_floor_height)
        ++ "m is below minimum 2.6m"] else [])
  let warnings :=
    (if max_height > 0 ∧ ¬ (building_height > max_height)
        ∧ building_height > max_height * 0.95 then
      ["Building height " ++ fmtQ building_height ++ "m is very close to maximum "
        ++ fmtQ max_height ++ "m, only " ++ fmtQ (max_height - building_height)
        ++ "m margin"] else [])
    ++ (if num_floors > 0 ∧ building_height > 0 ∧ ¬ (avg_floor_height < 2.6)
        ∧ avg_floor_height > 4.5 then
      ["Average floor height " ++ fmtQ (round2 avg_floor_height)
        ++ "m is unusually high, verify"] else [])
  let evidence : List (String × EvValue) :=
    [("building_height_m", .num building_height), ("max_allowed_height_m", .num max_height),
     ("num_floors", .num num_floors), ("max_floors", .num max_floors)]
    ++ (if num_floors > 0 ∧ building_height > 0 then
      [("avg_floor_height_m", EvValue.num (round2 avg_floor_height))] else [])
  { rule_id := "ZON-HEIGHT-002", passed := violations.isEmpty, violations := violations,
    warnings := warnings, evidence := evidence, severity := .critical }

/-- ZON-COVERAGE-003: building coverage percentage (`ZonCoverage003.validate`). -/
def ZonCoverage003.validate (data : Dataset) : ValidationResult :=
  let plot_area := data.plot.area_m2.getD 0
  if plot_area = 0 then
    { rule_id := "ZON-COVERAGE-003", passed := false, violations := ["Plot area not provided"],
      warnings := [], evidence := [("plot_area_m2", .num plot_area)], severity := .critical }
  else
    let building_footprint := data.building.footprint_m2.getD 0
    let coverage_percent := building_footprint / plot_area * 100
    let max_coverage := data.plot.max_coverage_percent.getD 0
    let violations :=
      (if max_coverage > 0 ∧ coverage_percent > max_coverage then
        ["Building coverage " ++ fmtQ (round1 coverage_percent) ++ "% exceeds maximum "
          ++ fmtQ max_coverage ++ "% (excess: " ++ fmtQ (round1 (coverage_percent - max_coverage))
          ++ "%) per TABA"] else [])
    let warnings :=
      (if max_coverage > 0 ∧ ¬ (coverage_percent > max_coverage)
          ∧ coverage_percent > max_coverage * 0.95 then
        ["Building coverage " ++ fmtQ (round1 coverage_percent) ++ "% is very close to maximum "
          ++ fmtQ max_coverage ++ "%, only " ++ fmtQ (round1 (max_coverage - coverage_percent))
          ++ "% margin"] else [])
      ++ (if ¬ (max_coverage > 0) ∧ coverage_percent > 50 then
        ["Building coverage " ++ fmtQ (round1 coverage_percent)
          ++ "% exceeds typical maximum 50%"] else [])
    let evidence : List (String × EvValue) :=
      [("plot_area_m2", .num plot_area), ("building_footprint_m2", .num building_footprint),
       ("coverage_percent", .num (round2 coverage_percent)),
       ("max_coverage_percent", .num max_coverage)]
    { rule_id := "ZON-COVERAGE-003", passed := violations.isEmpty, violations := violations,
      warnings := warnings, evidence := evidence, severity := .critical }

/-- ZON-FAR-004: floor area ratio (`ZonFar004.validate`). -/
def ZonFar004.validate (data : Dataset) : ValidationResult :=
  let plot_area := data.plot.area_m2.getD 0
  if plot_area = 0 then
    { rule_id := "ZON-FAR-004", passed := false, violations := ["Plot area not provided"],
      warnings := [], evidence := [("plot_area_m2", .num plot_area)], severity := .critical }
  else
    let total_floor_area := data.building.total_floor_area_m2.getD 0
    let far := total_floor_area / plot_area
    let max_far := data.plot.max_far.getD 0
    let residential_area := data.building.residential_area_m2.getD 0
    let commercial_area := data.building.commercial_area_m2.getD 0
    let service_area := data.building.service_area_m2.getD 0
    let calculated_total := residential_area + commercial_area + service_area
    let violations :=
      (if max_far > 0 ∧ far > max_far then
        ["FAR " ++ fmtQ (round2 far) ++ " exceeds maximum " ++ fmtQ max_far
          ++ " (excess: " ++ fmtQ (round2 (far - max_far)) ++ ", excess area: "
          ++ fmtQ (round1 ((far - max_far) * plot_area)) ++ "m²) per TABA"] else [])
    let warnings :=
      (if max_far > 0 ∧ ¬ (far > max_far) ∧ far > max_far * 0.95 then
        ["FAR " ++ fmtQ (round2 far) ++ " is very close to maximum " ++ fmtQ max_far
          ++ ", only " ++ fmtQ (round2 (max_far - far)) ++ " margin ("
          ++ fmtQ (round1 ((max_far - far) * plot_area)) ++ "m²)"] else [])
      ++ (if ¬ (max_far > 0) ∧ far > 1.5 then
        ["FAR " ++ fmtQ (round2 far) ++ " exceeds typical maximum "
          ++ fmtQ 1.5 ++ " for residential"] else [])
      ++ (if (residential_area ≠ 0 ∨ commercial_area ≠ 0 ∨ service_area ≠ 0)
          ∧ |calculated_total - total_floor_area| > 1 then
        ["Sum of area breakdown (" ++ fmtQ calculated_total
          ++ "m²) doesn\x27t match total floor area (" ++ fmtQ total_floor_area ++ "m²)"]
       else [])
    let evidence : List (String × EvValue) :=
      [("plot_area_m2", .num plot_area), ("total_floor_area_m2", .num total_floor_area),
       ("far", .num (round2 far)), ("max_far", .num max_far)]
      ++ (if residential_area ≠ 0 ∨ commercial_area ≠ 0 ∨ service_area ≠ 0 then
        [("residential_area_m2", EvValue.num residential_area),
         ("commercial_area_m2", EvValue.num commercial_area),
         ("service_area_m2", EvValue.num service_area)] else [])
    { rule_id := "ZON-FAR-004", passed := violations.isEmpty, violations := violations,
      warnings := warnings, evidence := evidence, severity := .critical }

/-- ZON-PARKING-005: required parking spaces (`ZonParking005.validate`). -/
def ZonParking005.validate (data : Dataset) : ValidationResult :=
  let building_data := data.building
  let provided_spaces := building_data.parking.total_spaces.getD 0
  let required_spaces := calculate_parking_requirement
    (building_data.total_floor_area_m2.getD 0) (building_data.use_type.getD "residential")
    (building_data.num_units.getD 0)
  let accessible_spaces := building_data.parking.accessible_spaces.getD 0
  let min_accessible : ℤ := max 1 (pyInt (provided_spaces * 0.05))
  let violations :=
    (if provided_spaces < (required_spaces : ℚ) then
      ["Parking spaces " ++ fmtQ provided_spaces ++ " below required "
        ++ toString required_spaces ++ " (shortage: "
        ++ fmtQ ((required_spaces : ℚ) - provided_spaces) ++ " spaces)"] else [])
    ++ (if accessible_spaces < (min_accessible : ℚ) then
      ["Accessible parking spaces " ++ fmtQ accessible_spaces ++ " below minimum "
        ++ toString min_accessible ++ " (5% of total, minimum 1)"] else [])
  let warnings :=
    (if ¬ (provided_spaces < (required_spaces : ℚ))
        ∧ provided_spaces < (required_spaces : ℚ) + 2 then
      ["Parking spaces " ++ fmtQ provided_spaces ++ " barely meets requirement of "
        ++ toString required_spaces ++ ", consider adding buffer"] else [])
  let evidence : List (String × EvValue) :=
    [("provided_spaces", .num provided_spaces),
     ("required_spaces", .num (required_spaces : ℚ)),
     ("calculation_basis",
      .str (ZonParking005.get_parking_standard (building_data.use_type.getD "residential"))),
     ("accessible_spaces", .num accessible_spaces),
     ("min_accessible_spaces", .num (min_accessible : ℚ))]
  { rule_id := "ZON-PARKING-005", passed := violations.isEmpty, violations := violations,
    warnings := warnings, evidence := evidence, severity := .high }

/-- SAF-FIRE-001: fire suppression requirements (`SafFire001.validate`). -/
def SafFire001.validate (data : Dataset) : ValidationResult :=
  let building_data := data.building
  let fire_data := building_data.safety.fire_suppression
  let num_floors := building_data.num_floors.getD 0
  let building_height := building_data.height_m.getD 0
  let building_use := building_data.use_type.getD "residential"
  let has_sprinklers := fire_data.has_sprinkler_system.getD false
  let has_extinguishers := fire_data.has_fire_extinguishers.getD false
  let has_fire_alarm := fire_data.has_fire_alarm.getD false
  let has_fire_rated_elements := fire_data.has_fire_rated_elements.getD false
  let violations :=
    (if (num_floors > 4 ∨ building_height > 12) ∧ ¬ has_sprinklers then
      ["Sprinkler system required for buildings with " ++ fmtQ num_floors
        ++ " floors or height " ++ fmtQ building_height ++ "m (SI 1220 Part 4)"] else [])
    ++ (if ¬ has_extinguishers then
      ["Fire extinguishers required on every floor (SI 1220)"] else [])
    ++ (if building_use ∈ ["residential", "commercial", "office", "assembly"]
        ∧ num_floors > 2 ∧ ¬ has_fire_alarm then
      ["Fire alarm system required for " ++ building_use ++ " building with "
        ++ fmtQ num_floors ++ " floors (SI 1220)"] else [])
  let warnings :=
    (if num_floors > 2 ∧ ¬ has_fire_rated_elements then
      ["Fire-rated doors and walls recommended for multi-floor buildings"] else [])
  let evidence : List (String × EvValue) :=
    [("num_floors", .num num_floors), ("building_height_m", .num building_height),
     ("building_use", .str building_use), ("has_sprinkler_system", .bool has_sprinklers),
     ("has_fire_extinguishers", .bool has_extinguishers),
     ("has_fire_alarm", .bool has_fire_alarm),
     ("has_fire_rated_elements", .bool has_fire_rated_elements)]
  { rule_id := "SAF-FIRE-001", passed := violations.isEmpty, violations := violations,
    warnings := warnings, evidence := evidence, severity := .critical }

/-- SAF-EVAC-002: emergency exits (`SafEvac002.validate`). -/
def SafEvac002.validate (data : Dataset) : ValidationResult :=
  let building_data := data.building
  let evac_data := building_data.safety.evacuation
  let num_floors := building_data.num_floors.getD 0
  let floor_area := building_data.typical_floor_area_m2.getD 0
  let occupancy := building_data.max_occupancy.getD 0
  let num_exits := evac_data.num_emergency_exits.getD 0
  let exit_widths := evac_data.exit_widths_cm
  let max_travel_distance := evac_data.max_travel_distance_m.getD 0
  let max_allowed : ℚ := if building_data.use_type = some "assembly" then 20 else 30
  let has_emergency_lighting := evac_data.has_emergency_lighting.getD false
  let violations :=
    (if num_floors > 2 ∨ occupancy > 50 then
      (if num_exits < 2 then
        ["Minimum 2 emergency exits required for " ++ fmtQ num_floors
          ++ " floors or occupancy " ++ fmtQ occupancy ++ " (SI 1220 Part 3)"] else [])
     else
      (if num_exits < 1 then ["At least 1 emergency exit required"] else []))
    ++ ((pyEnum exit_widths).map (fun p =>
      (if p.2 < 90 then
        ["Emergency exit " ++ toString (p.1 + 1) ++ " width " ++ fmtQ p.2
          ++ "cm below minimum 90cm (SI 1220)"] else []))).flatten
    ++ (if max_travel_distance > max_allowed then
      ["Maximum travel distance " ++ fmtQ max_travel_distance ++ "m exceeds limit "
        ++ fmtQ max_allowed ++ "m (SI 1220)"] else [])
    ++ (if ¬ has_emergency_lighting ∧ num_floors > 2 then
      ["Emergency lighting required on exit routes (SI 1220)"] else [])
  let evidence : List (String × EvValue) :=
    [("num_floors", .num num_floors), ("floor_area_m2", .num floor_area),
     ("max_occupancy", .num occupancy), ("num_emergency_exits", .num num_exits),
     ("exit_widths_cm", .numList exit_widths),
     ("max_travel_distance_m", .num max_travel_distance),
     ("has_emergency_lighting", .bool has_emergency_lighting)]
  { rule_id := "SAF-EVAC-002", passed := violations.isEmpty, violations := violations,
    warnings := [], evidence := evidence, severity := .critical }

/-- SAF-STAIR-003: stairway dimensions (`SafStair003.validate`). -/
def SafStair003.validate (data : Dataset) : ValidationResult :=
  let stairs_data := data.building.safety.stairways
  if stairs_data.isEmpty then
    { rule_id := "SAF-STAIR-003", passed := false, violations := ["No stairway data provided"],
      warnings := [], evidence := [], severity := .critical }
  else
    let items := pyEnum stairs_data
    let violations := (items.map (fun p =>
      let stair_id := p.2.id.getD ("Stairway-" ++ toString (p.1 + 1))
      let tread_depth := p.2.tread_depth_cm.getD 0
      let riser_height := p.2.riser_height_cm.getD 0
      let width := p.2.width_cm.getD 0
      let headroom := p.2.headroom_cm.getD 0
      (if tread_depth < 25 then
        [stair_id ++ ": Tread depth " ++ fmtQ tread_depth
          ++ "cm below minimum 25cm (SI 1142)"] else [])
      ++ (if riser_height > 19 then
        [stair_id ++ ": Riser height " ++ fmtQ riser_height
          ++ "cm exceeds maximum 19cm (SI 1142)"] else [])
      ++ (if width < 120 then
        [stair_id ++ ": Width " ++ fmtQ width ++ "cm below minimum 120cm (SI 1142)"] else [])
      ++ (if headroom < 210 then
        [stair_id ++ ": Headroom " ++ fmtQ headroom
          ++ "cm below minimum 210cm (SI 1142)"] else []))).flatten
    let warnings := (items.map (fun p =>
      let stair_id := p.2.id.getD ("Stairway-" ++ toString (p.1 + 1))
      let riser_height := p.2.riser_height_cm.getD 0
      let width := p.2.width_cm.getD 0
      let landing_depth := p.2.landing_depth_cm.getD 0
      (if ¬ (riser_height > 19) ∧ riser_height < 12 then
        [stair_id ++ ": Riser height " ++ fmtQ riser_height ++ "cm is unusually low"] else [])
      ++ (if landing_depth < width then
        [stair_id ++ ": Landing depth " ++ fmtQ landing_depth
          ++ "cm should be at least equal to width " ++ fmtQ width ++ "cm"] else []))).flatten
    let evidence : List (String × EvValue) := (items.map (fun p =>
      let stair_id := p.2.id.getD ("Stairway-" ++ toString (p.1 + 1))
      [(stair_id ++ "_tread_depth_cm", EvValue.num (p.2.tread_depth_cm.getD 0)),
       (stair_id ++ "_riser_height_cm", EvValue.num (p.2.riser_height_cm.getD 0)),
       (stair_id ++ "_width_cm", EvValue.num (p.2.width_cm.getD 0)),
       (stair_id ++ "_headroom_cm", EvValue.num (p.2.headroom_cm.getD 0)),
       (stair_id ++ "_landing_depth_cm", EvValue.num (p.2.landing_depth_cm.getD 0))])).flatten
    { rule_id := "SAF-STAIR-003", passed := violations.isEmpty, violations := violations,
      warnings := warnings, evidence := evidence, severity := .critical }

/-- SAF-RAIL-004: safety railings (`SafRail004.validate`). -/
def SafRail004.validate (data : Dataset) : ValidationResult :=
  let building_data := data.building
  let railings_data := building_data.safety.railings
  let balcony_railing_height := railings_data.balcony_height_cm.getD 0
  let stair_railing_height := railings_data.stair_height_cm.getD 0
  let bar_spacing := railings_data.bar_spacing_cm.getD 0
  let railing_load_capacity := railings_data.load_capacity_kn.getD 0
  let has_roof_access := building_data.has_roof_access.getD false
  let has_roof_railing := railings_data.has_roof_railing.getD false
  let violations :=
    (if balcony_railing_height > 0 ∧ balcony_railing_height < 110 then
      ["Balcony railing height " ++ fmtQ balcony_railing_height
        ++ "cm below minimum 110cm (SI 1142)"] else [])
    ++ (if stair_railing_height > 0 ∧ stair_railing_height < 90 then
      ["Stairway railing height " ++ fmtQ stair_railing_height
        ++ "cm below minimum 90cm (SI 1142)"] else [])
    ++ (if bar_spacing > 12 then
      ["Railing bar spacing " ++ fmtQ bar_spacing
        ++ "cm exceeds maximum 12cm (SI 1142)"] else [])
    ++ (if railing_load_capacity > 0 ∧ railing_load_capacity < 1.5 then
      ["Railing load capacity " ++ fmtQ railing_load_capacity
        ++ "kN below minimum 1.5kN (SI 1142)"] else [])
    ++ (if has_roof_access ∧ ¬ has_roof_railing then
      ["Roof railing required for accessible roofs (SI 1142)"] else [])
  let evidence : List (String × EvValue) :=
    [("balcony_railing_height_cm", .num balcony_railing_height),
     ("stair_railing_height_cm", .num stair_railing_height),
     ("bar_spacing_cm", .num bar_spacing),
     ("railing_load_capacity_kn", .num railing_load_capacity),
     ("has_roof_access", .bool has_roof_access),
     ("has_roof_railing", .bool has_roof_railing)]
  { rule_id := "SAF-RAIL-004", passed := violations.isEmpty, violations := violations,
    warnings := [], evidence := evidence, severity := .critical }

/-- SAF-LIGHT-005: emergency lighting (`SafLight005.validate`). -/
def SafLight005.validate (data : Dataset) : ValidationResult :=
  let building_data := data.building
  let lighting_data := building_data.safety.emergency_lighting
  let num_floors := building_data.num_floors.getD 0
  let building_use := building_data.use_type.getD "residential"
  let has_emergency_lighting := lighting_data.has_system.getD false
  let backup_duration := lighting_data.backup_duration_minutes.getD 0
  let min_illumination := lighting_data.min_illumination_lux.getD 0
  let has_exit_signs := lighting_data.has_exit_signs.getD false
  let escape_route_coverage := lighting_data.escape_route_coverage_percent.getD 0
  let violations :=
    (if (num_floors > 2 ∨ building_use ∈ ["commercial", "office", "assembly"])
        ∧ ¬ has_emergency_lighting then
      ["Emergency lighting required for " ++ fmtQ num_floors ++ "-floor " ++ building_use
        ++ " building (SI 1220)"] else [])
    ++ (if has_emergency_lighting ∧ backup_duration < 90 then
      ["Emergency lighting backup duration " ++ fmtQ backup_duration
        ++ " minutes below minimum 90 minutes (SI 1220)"] else [])
    ++ (if has_emergency_lighting ∧ min_illumination < 1 then
      ["Emergency lighting illumination " ++ fmtQ min_illumination
        ++ " lux below minimum 1 lux (SI 1220)"] else [])
    ++ (if has_emergency_lighting ∧ escape_route_coverage < 100 then
      ["Emergency lighting must cover 100% of escape routes, current coverage: "
        ++ fmtQ escape_route_coverage ++ "%"] else [])
  let warnings :=
    (if num_floors > 2 ∧ ¬ has_exit_signs then
      ["Illuminated exit signs recommended for multi-floor buildings"] else [])
  let evidence : List (String × EvValue) :=
    [("num_floors", .num num_floors), ("building_use", .str building_use),
     ("has_emergency_lighting", .bool has_emergency_lighting),
     ("backup_duration_minutes", .num backup_duration),
     ("min_illumination_lux", .num min_illumination),
     ("has_exit_signs", .bool has_exit_signs),
     ("escape_route_coverage_percent", .num escape_route_coverage)]
  { rule_id := "SAF-LIGHT-005", passed := violations.isEmpty, violations := violations,
    warnings := warnings, evidence := evidence, severity := .high }

/-- ACC-RAMP-001: ramp slope (`AccRamp001.validate`). -/
def AccRamp001.validate (data : Dataset) : ValidationResult :=
  let building_data := data.building
  let ramps_data := building_data.accessibility.ramps
  if ramps_data.isEmpty then
    let has_level_changes := building_data.has_level_changes.getD false
    { rule_id := "ACC-RAMP-001", passed := ! has_level_changes,
      violations :=
        (if has_level_changes then
          ["Ramp required for level changes (Israeli accessibility law)"] else []),
      warnings := [], evidence := [], severity := .critical }
  else
    let items := pyEnum ramps_data
    let violations := (items.map (fun p =>
      let ramp_id := p.2.id.getD ("Ramp-" ++ toString (p.1 + 1))
      let slope_percent := verify_ramp_slope p.2
      let width := p.2.width_cm.getD 0
      let run_length := p.2.run_length_m.getD 0
      let has_landing := p.2.has_landing.getD false
      let has_handrails := p.2.has_handrails.getD false
      (if slope_percent > 8.33 then
        [ramp_id ++ ": Slope " ++ fmtQ (round2 slope_percent) ++ "% exceeds maximum "
          ++ fmtQ 8.33 ++ "% (Israeli accessibility law)"] else [])
      ++ (if width < 90 then
        [ramp_id ++ ": Width " ++ fmtQ width ++ "cm below minimum 90cm"] else [])
      ++ (if run_length > 9 ∧ ¬ has_landing then
        [ramp_id ++ ": Landing required for run length " ++ fmtQ run_length
          ++ "m (max 9m between landings)"] else [])
      ++ (if ¬ has_handrails then
        [ramp_id ++ ": Handrails required on both sides"] else []))).flatten
    let warnings := (items.map (fun p =>
      let ramp_id := p.2.id.getD ("Ramp-" ++ toString (p.1 + 1))
      let slope_percent := verify_ramp_slope p.2
      (if ¬ (slope_percent > 8.33) ∧ slope_percent > 6.0 then
        [ramp_id ++ ": Slope " ++ fmtQ (round2 slope_percent)
          ++ "% is steep, consider gentler slope"] else []))).flatten
    let evidence : List (String × EvValue) := (items.map (fun p =>
      let ramp_id := p.2.id.getD ("Ramp-" ++ toString (p.1 + 1))
      [(ramp_id ++ "_slope_percent", EvValue.num (verify_ramp_slope p.2)),
       (ramp_id ++ "_width_cm", EvValue.num (p.2.width_cm.getD 0)),
       (ramp_id ++ "_run_length_m", EvValue.num (p.2.run_length_m.getD 0)),
       (ramp_id ++ "_has_landing", EvValue.bool (p.2.has_landing.getD false)),
       (ramp_id ++ "_has_handrails", EvValue.bool (p.2.has_handrails.getD false))])).flatten
    { rule_id := "ACC-RAMP-001", passed := violations.isEmpty, violations := violations,
      warnings := warnings, evidence := evidence, severity := .critical }

/-- ACC-DOOR-002: accessible door width (`AccDoor002.validate`). -/
def AccDoor002.validate (data : Dataset) : ValidationResult :=
  let doors_data := data.building.accessibility.doors
  if doors_data.isEmpty then
    { rule_id := "ACC-DOOR-002", passed := false,
      violations := ["No accessible door data provided"],
      warnings := [], evidence := [], severity := .critical }
  else
    let items := pyEnum doors_data
    let violations := (items.map (fun p =>
      let door_id := p.2.id.getD ("Door-" ++ toString (p.1 + 1))
      let door_type := p.2.type.getD "entry"
      let clear_width := p.2.clear_width_cm.getD 0
      let threshold_height := p.2.threshold_height_cm.getD 0
      let maneuvering_space := p.2.maneuvering_space_cm.getD 0
      let is_fire_door := p.2.is_fire_door.getD false
      let has_auto_closer := p.2.has_auto_closer.getD false
      let closing_force := p.2.closing_force_n.getD 0
      let min_width : ℚ := if door_type = "entry" then 90 else 80
      (if clear_width < min_width then
        [door_id ++ ": Clear width " ++ fmtQ clear_width ++ "cm below minimum "
          ++ fmtQ min_width ++ "cm for " ++ door_type
          ++ " door (Israeli accessibility law)"] else [])
      ++ (if threshold_height > 2 then
        [door_id ++ ": Threshold height " ++ fmtQ threshold_height
          ++ "cm exceeds maximum 2cm"] else [])
      ++ (if maneuvering_space < 150 then
        [door_id ++ ": Maneuvering space " ++ fmtQ maneuvering_space
          ++ "cm below minimum 150cm"] else [])
      ++ (if is_fire_door ∧ has_auto_closer ∧ closing_force > 22 then
        [door_id ++ ": Closing force " ++ fmtQ closing_force
          ++ "N exceeds maximum 22N"] else []))).flatten
    let warnings := (items.map (fun p =>
      let door_id := p.2.id.getD ("Door-" ++ toString (p.1 + 1))
      let has_lever_handle := p.2.has_lever_handle.getD false
      (if ¬ has_lever_handle then
        [door_id ++ ": Lever handles recommended for accessibility"] else []))).flatten
    let evidence : List (String × EvValue) := (items.map (fun p =>
      let door_id := p.2.id.getD ("Door-" ++ toString (p.1 + 1))
      let is_fire_door := p.2.is_fire_door.getD false
      let has_auto_closer := p.2.has_auto_closer.getD false
      [(door_id ++ "_clear_width_cm", EvValue.num (p.2.clear_width_cm.getD 0)),
       (door_id ++ "_type", EvValue.str (p.2.type.getD "entry")),
       (door_id ++ "_threshold_height_cm", EvValue.num (p.2.threshold_height_cm.getD 0)),
       (door_id ++ "_maneuvering_space_cm", EvValue.num (p.2.maneuvering_space_cm.getD 0)),
       (door_id ++ "_has_lever_handle", EvValue.bool (p.2.has_lever_handle.getD false))]
      ++ (if is_fire_door ∧ has_auto_closer then
        [(door_id ++ "_closing_force_n", EvValue.num (p.2.closing_force_n.getD 0))]
       else []))).flatten
    { rule_id := "ACC-DOOR-002", passed := violations.isEmpty, violations := violations,
      warnings := warnings, evidence := evidence, severity := .critical }

/-- ACC-ELEV-003: elevator requirements (`AccElev003.validate`). -/
def AccElev003.validate (data : Dataset) : ValidationResult :=
  let building_data := data.building
  let elevator_data := building_data.accessibility.elevator
  let num_floors := building_data.num_floors.getD 0
  let has_elevator := elevator_data.has_elevator.getD false
  if num_floors > 3 ∧ ¬ has_elevator then
    { rule_id := "ACC-ELEV-003", passed := false,
      violations := ["Elevator required for building with " ++ fmtQ num_floors
        ++ " floors (>3) (Israeli accessibility law)"],
      warnings := [],
      evidence := [("num_floors", .num num_floors), ("has_elevator", .bool has_elevator)],
      severity := .critical }
  else if ¬ has_elevator then
    { rule_id := "ACC-ELEV-003", passed := true, violations := [], warnings := [],
      evidence := [("num_floors", .num num_floors), ("has_elevator", .bool has_elevator)],
      severity := .critical }
  else
    let car_width := elevator_data.car_width_cm.getD 0
    let car_depth := elevator_data.car_depth_cm.getD 0
    let door_width := elevator_data.door_width_cm.getD 0
    let door_open_time := elevator_data.door_open_time_seconds.getD 0
    let has_braille_controls := elevator_data.has_braille_controls.getD false
    let has_audio_announcements := elevator_data.has_audio_announcements.getD false
    let button_height := elevator_data.button_height_cm.getD 0
    let violations :=
      (if car_width < 110 ∨ car_depth < 140 then
        ["Elevator car dimensions " ++ fmtQ car_width ++ "x" ++ fmtQ car_depth
          ++ "cm below minimum 110x140cm (Israeli accessibility law)"] else [])
      ++ (if door_width < 80 then
        ["Elevator door width " ++ fmtQ door_width ++ "cm below minimum 80cm"] else [])
      ++ (if ¬ has_braille_controls then
        ["Elevator must have Braille and tactile controls"] else [])
      ++ (if ¬ has_audio_announcements then
        ["Elevator must have audio floor announcements"] else [])
      ++ (if button_height < 90 ∨ button_height > 120 then
        ["Elevator control button height " ++ fmtQ button_height
          ++ "cm outside range 90-120cm"] else [])
    let warnings :=
      (if door_open_time < 3 then
        ["Elevator door open time " ++ fmtQ door_open_time
          ++ "s below recommended 3s"] else [])
    let evidence : List (String × EvValue) :=
      [("num_floors", .num num_floors), ("has_elevator", .bool has_elevator),
       ("car_width_cm", .num car_width), ("car_depth_cm", .num car_depth),
       ("door_width_cm", .num door_width),
       ("door_open_time_seconds", .num door_open_time),
       ("has_braille_controls", .bool has_braille_controls),
       ("has_audio_announcements", .bool has_audio_announcements),
       ("button_height_cm", .num button_height)]
    { rule_id := "ACC-ELEV-003", passed := violations.isEmpty, violations := violations,
      warnings := warnings, evidence := evidence, severity := .critical }

/-- ENV-ENERGY-001: green building standard (`EnvEnergy001.validate`). -/
def EnvEnergy001.validate (data : Dataset) : ValidationResult :=
  let building_data := data.building
  let energy_data := building_data.environmental.energy
  let si5282_level := energy_data.si5282_level.getD ""
  let valid_levels := ["basic", "intermediate", "advanced", "platinum"]
  let wall_u_value := energy_data.wall_u_value.getD 0
  let roof_u_value := energy_data.roof_u_value.getD 0
  let window_u_value := energy_data.window_u_value.getD 0
  let has_solar_water := energy_data.has_solar_water_heating.getD false
  let led_coverage_percent := energy_data.led_coverage_percent.getD 0
  let renewable_capacity_kw := energy_data.renewable_capacity_kw.getD 0
  let floor_area := building_data.total_floor_area_m2.getD 0
  let renewable_per_m2 := renewable_capacity_kw / floor_area
  let has_low_flow_fixtures := energy_data.has_low_flow_fixtures.getD false
  let violations :=
    (if wall_u_value > 0.5 then
      ["Wall U-value " ++ fmtQ wall_u_value
        ++ " W/m²K exceeds maximum 0.5 W/m²K (SI 5282)"] else [])
    ++ (if roof_u_value > 0.35 then
      ["Roof U-value " ++ fmtQ roof_u_value
        ++ " W/m²K exceeds maximum 0.35 W/m²K (SI 5282)"] else [])
    ++ (if window_u_value > 2.0 then
      ["Window U-value " ++ fmtQ window_u_value
        ++ " W/m²K exceeds maximum 2.0 W/m²K (SI 5282)"] else [])
    ++ (if building_data.use_type = some "residential" ∧ ¬ has_solar_water then
      ["Solar water heating required for residential buildings (SI 5282)"] else [])
  let warnings :=
    (if si5282_level ≠ "" ∧ si5282_level ∉ valid_levels then
      ["SI 5282 level \x27" ++ si5282_level
        ++ "\x27 not recognized. Valid: basic, intermediate, advanced, platinum"] else [])
    ++ (if led_coverage_percent < 80 then
      ["LED coverage " ++ fmtQ led_coverage_percent
        ++ "% below recommended 80% (SI 5282)"] else [])
    ++ (if floor_area > 0 ∧ renewable_per_m2 < 0.01 then
      ["Renewable energy capacity " ++ fmtQ (round4 renewable_per_m2)
        ++ " kW/m² below recommended 0.01 kW/m² (SI 5282)"] else [])
    ++ (if ¬ has_low_flow_fixtures then
      ["Low-flow water fixtures recommended (SI 5282)"] else [])
  let evidence : List (String × EvValue) :=
    [("si5282_level", .str si5282_level), ("wall_u_value", .num wall_u_value),
     ("roof_u_value", .num roof_u_value), ("window_u_value", .num window_u_value),
     ("has_solar_water_heating", .bool has_solar_water),
     ("led_coverage_percent", .num led_coverage_percent),
     ("renewable_capacity_kw", .num renewable_capacity_kw)]
    ++ (if floor_area > 0 then
      [("renewable_kw_per_m2", EvValue.num (round4 renewable_per_m2))] else [])
    ++ [("has_low_flow_fixtures", .bool has_low_flow_fixtures)]
  { rule_id := "ENV-ENERGY-001", passed := violations.isEmpty, violations := violations,
    warnings := warnings, evidence := evidence, severity := .high }

/-- ENV-NOISE-002: acoustic insulation (`EnvNoise002.validate`). -/
def EnvNoise002.validate (data : Dataset) : ValidationResult :=
  let acoustic_data := data.building.environmental.acoustic
  let wall_rw := acoustic_data.wall_rw_db.getD 0
  let floor_rw := acoustic_data.floor_rw_db.getD 0
  let floor_ln := acoustic_data.floor_ln_db.getD 0
  let facade_rw := acoustic_data.facade_rw_db.getD 0
  let external_noise := data.location.external_noise_db.getD 0
  let required_facade_rw := external_noise - 35
  let window_rw := acoustic_data.window_rw_db.getD 0
  let violations :=
    (if wall_rw > 0 ∧ wall_rw < 52 then
      ["Wall sound insulation Rw " ++ fmtQ wall_rw
        ++ "dB below minimum 52dB (SI 1004)"] else [])
    ++ (if floor_rw > 0 ∧ floor_rw < 52 then
      ["Floor sound insulation Rw " ++ fmtQ floor_rw
        ++ "dB below minimum 52dB (SI 1004)"] else [])
    ++ (if floor_ln > 58 then
      ["Floor impact sound Ln " ++ fmtQ floor_ln
        ++ "dB exceeds maximum 58dB (SI 1004)"] else [])
    ++ (if external_noise > 0 ∧ facade_rw < required_facade_rw then
      ["Facade sound insulation Rw " ++ fmtQ facade_rw ++ "dB below required "
        ++ fmtQ required_facade_rw ++ "dB for external noise " ++ fmtQ external_noise
        ++ "dB (SI 1004)"] else [])
  let warnings :=
    (if wall_rw > 0 ∧ ¬ (wall_rw < 52) ∧ wall_rw < 55 then
      ["Wall sound insulation Rw " ++ fmtQ wall_rw
        ++ "dB is minimal, recommend ≥55dB"] else [])
    ++ (if window_rw > 0 ∧ window_rw < 30 then
      ["Window sound insulation Rw " ++ fmtQ window_rw
        ++ "dB below recommended 30dB"] else [])
  let evidence : List (String × EvValue) :=
    [("wall_rw_db", .num wall_rw), ("floor_rw_db", .num floor_rw),
     ("floor_ln_db", .num floor_ln), ("facade_rw_db", .num facade_rw),
     ("external_noise_db", .num external_noise)]
    ++ (if external_noise > 0 then
      [("required_facade_rw_db", EvValue.num required_facade_rw)] else [])
    ++ [("window_rw_db", .num window_rw)]
  { rule_id := "ENV-NOISE-002", passed := violations.isEmpty, violations := violations,
    warnings := warnings, evidence := evidence, severity := .medium }

/-- A registered rule: identity plus evaluation.  `validate` returns
`Except.error e` to model a Python exception with message `e` escaping the
rule; every concrete catalog rule below is total and returns `Except.ok`. -/
structure Rule where
  rule_id : String
  category : RuleCategory
  severity : RuleSeverity
  validate : Dataset → Except String ValidationResult

/-- The fixed rule catalog in registration order (`RulesEngine.load_rules`). -/
def load_rules : List Rule :=
  [⟨"STR-LOAD-001", .structural, .critical, fun d => .ok (StrLoad001.validate d)⟩,
   ⟨"STR-FOUND-002", .structural, .critical, fun d => .ok (StrFound002.validate d)⟩,
   ⟨"STR-COLUMN-003", .structural, .critical, fun d => .ok (StrColumn003.validate d)⟩,
   ⟨"STR-BEAM-004", .structural, .critical, fun d => .ok (StrBeam004.validate d)⟩,
   ⟨"STR-SLAB-005", .structural, .critical, fun d => .ok (StrSlab005.validate d)⟩,
   ⟨"ZON-SETBACK-001", .zoning, .critical, fun d => .ok (ZonSetback001.validate d)⟩,
   ⟨"ZON-HEIGHT-002", .zoning, .critical, fun d => .ok (ZonHeight002.validate d)⟩,
   ⟨"ZON-COVERAGE-003", .zoning, .critical, fun d => .ok (ZonCoverage003.validate d)⟩,
   ⟨"ZON-FAR-004", .zoning, .critical, fun d => .ok (ZonFar004.validate d)⟩,
   ⟨"ZON-PARKING-005", .zoning, .high, fun d => .ok (ZonParking005.validate d)⟩,
   ⟨"SAF-FIRE-001", .safety, .critical, fun d => .ok (SafFire001.validate d)⟩,
   ⟨"SAF-EVAC-002", .safety, .critical, fun d => .ok (SafEvac002.validate d)⟩,
   ⟨"SAF-STAIR-003", .safety, .critical, fun d => .ok (SafStair003.validate d)⟩,
   ⟨"SAF-RAIL-004", .safety, .critical, fun d => .ok (SafRail004.validate d)⟩,
   ⟨"SAF-LIGHT-005", .safety, .high, fun d => .ok (SafLight005.validate d)⟩,
   ⟨"ACC-RAMP-001", .accessibility, .critical, fun d => .ok (AccRamp001.validate d)⟩,
   ⟨"ACC-DOOR-002", .accessibility, .critical, fun d => .ok (AccDoor002.validate d)⟩,
   ⟨"ACC-ELEV-003", .accessibility, .critical, fun d => .ok (AccElev003.validate d)⟩,
   ⟨"ENV-ENERGY-001", .environmental, .high, fun d => .ok (EnvEnergy001.validate d)⟩,
   ⟨"ENV-NOISE-002", .environmental, .medium, fun d => .ok (EnvNoise002.validate d)⟩]

/-- The synthetic failing result the engine substitutes when a rule raises. -/
def syntheticResult (rule_id : String) (e : String) : ResultDict :=
  { rule_id := rule_id, passed := false,
    violations := ["Validation error: " ++ e],
    warnings := [], evidence := [], severity := "critical" }

/-- The `try/except` body of the engine loops: evaluate one rule, substituting
the synthetic critical failure when the rule raises. -/
def dispatch (r : Rule) (data : Dataset) : ResultDict :=
  match r.validate data with
  | .ok result => result.toDict
  | .error e => syntheticResult r.rule_id e

/-- One entry of `summary.violations_by_severity`: bump the counter of a key
(insertion-ordered, like a Python dict). -/
def bumpCount : List (String × ℕ) → String → List (String × ℕ)
  | [], k => [(k, 1)]
  | (a, n) :: t, k => if a = k then (a, n + 1) :: t else (a, n) :: bumpCount t k

/-- The summary record produced by `RulesEngine._generate_summary`. -/
structure Summary where
  total_rules : ℕ
  total_passed : ℕ
  total_failed : ℕ
  pass_rate_percent : ℚ
  total_violations : ℕ
  total_warnings : ℕ
  violations_by_severity : List (String × ℕ)
  deriving DecidableEq

/-- `RulesEngine._generate_summary`. -/
def generate_summary (results : List ResultDict) : Summary :=
  let total_rules := results.length
  let total_passed := (results.filter (fun r => r.passed)).length
  let total_failed := total_rules - total_passed
  { total_rules := total_rules
    total_passed := total_passed
    total_failed := total_failed
    pass_rate_percent :=
      round2 (if total_rules > 0 then (total_passed : ℚ) / (total_rules : ℚ) * 100 else 0)
    total_violations := (results.map (fun r => r.violations.length)).sum
    total_warnings := (results.map (fun r => r.warnings.length)).sum
    violations_by_severity :=
      results.foldl (fun m r => if r.passed then m else bumpCount m r.severity) [] }

/-- The response of `validate_all` (timestamp omitted, see header). -/
structure EngineResponse where
  results : List ResultDict
  summary : Summary
  deriving DecidableEq

/-- `RulesEngine.validate_all` over an arbitrary rule list. -/
def validateAllOver (rules : List Rule) (data : Dataset) : EngineResponse :=
  let results := rules.map (fun r => dispatch r data)
  { results := results, summary := generate_summary results }

/-- `RulesEngine.validate_all` of the standard engine (catalog of 20 rules). -/
def validate_all (data : Dataset) : EngineResponse :=
  validateAllOver load_rules data

/-- The engine with explicit state: `self.rules` is the rule list built once by
`load_rules`; `validate_all` reads it and leaves it unchanged. -/
def validateAllStateful (rules : List Rule) (data : Dataset) :
    EngineResponse × List Rule :=
  (validateAllOver rules data, rules)

/-- `[c.value for c in RuleCategory]`, the `valid_categories` payload. -/
def validCategories : List String :=
  ["structural", "zoning", "safety", "accessibility", "environmental"]

/-- `RuleCategory(category)` as a partial parse: `none` models the `ValueError`. -/
def categoryFromString (s : String) : Option RuleCategory :=
  if s = "structural" then some .structural
  else if s = "zoning" then some .zoning
  else if s = "safety" then some .safety
  else if s = "accessibility" then some .accessibility
  else if s = "environmental" then some .environmental
  else none

/-- The response of `validate_by_category`: either the error payload
`{error, valid_categories}` or the normal payload (timestamp omitted). -/
inductive CategoryResponse where
  | invalid (error : String) (valid_categories : List String)
  | ok (category : String) (results : List ResultDict) (summary : Summary)
  deriving DecidableEq

/-- `results` of a category response (empty on the error payload). -/
def CategoryResponse.resultsOf : CategoryResponse → List ResultDict
  | .invalid _ _ => []
  | .ok _ results _ => results

/-- `summary` of a category response (summary of no results on the error payload). -/
def CategoryResponse.summaryOf : CategoryResponse → Summary
  | .invalid _ _ => generate_summary []
  | .ok _ _ summary => summary

/-- Whether the response is the `{error, valid_categories}` payload. -/
def CategoryResponse.isError : CategoryResponse → Bool
  | .invalid _ _ => true
  | .ok _ _ _ => false

/-- `RulesEngine.validate_by_category` over an arbitrary rule list. -/
def validateByCategoryOver (rules : List Rule) (category : String) (data : Dataset) :
    CategoryResponse :=
  match categoryFromString (pyLower category) with
  | none => .invalid ("Invalid category: " ++ category) validCategories
  | some cat_enum =>
    let results := (rules.filter (fun r => r.category == cat_enum)).map
      (fun r => dispatch r data)
    .ok category results (generate_summary results)

/-- `RulesEngine.validate_by_category` of the standard engine. -/
def validate_by_category (category : String) (data : Dataset) : CategoryResponse :=
  validateByCategoryOver load_rules category data

/-- One flattened violation entry built by `detect_violations` of
analysis_service.py: rule id, the failing rule's severity string, message. -/
structure VioEntry where
  rule_id : String
  severity : String
  message : String
  deriving DecidableEq

/-- The flattened cross-rule violation list of `detect_violations`
(`all_violations`): one entry per violation string of every non-passed result. -/
def allViolations (results : List ResultDict) : List VioEntry :=
  (results.map (fun r =>
    if ¬ r.passed then
      r.violations.map (fun v => ⟨r.rule_id, r.severity, v⟩)
    else [])).flatten

/-- The fixed severity weight table of `detect_violations`. -/
def severityScores : List (String × ℤ) :=
  [("critical", 100), ("high", 75), ("medium", 50), ("low", 25)]

/-- `total_severity` of `detect_violations`: weighted sum, one addend per
violation entry (unknown severities weigh 0, like `dict.get(sev, 0)`). -/
def totalSeverity (results : List ResultDict) : ℤ :=
  ((allViolations results).map (fun v => lookupD severityScores v.severity 0)).sum

/-- `has_critical_violations` of `detect_violations`. -/
def hasCriticalViolations (results : List ResultDict) : Bool :=
  (allViolations results).any (fun v => v.severity == "critical")

/-- The 20 rule ids in registration order (`load_rules` order). -/
def registrationOrder : List String :=
  ["STR-LOAD-001", "STR-FOUND-002", "STR-COLUMN-003", "STR-BEAM-004", "STR-SLAB-005",
   "ZON-SETBACK-001", "ZON-HEIGHT-002", "ZON-COVERAGE-003", "ZON-FAR-004", "ZON-PARKING-005",
   "SAF-FIRE-001", "SAF-EVAC-002", "SAF-STAIR-003", "SAF-RAIL-004", "SAF-LIGHT-005",
   "ACC-RAMP-001", "ACC-DOOR-002", "ACC-ELEV-003", "ENV-ENERGY-001", "ENV-NOISE-002"]

/-- A rule whose evaluation always raises (for exercising the containment path). -/
def badRule : Rule := ⟨"BAD-RULE", .structural, .low, fun _ => .error "boom"⟩

/-- A single failing result (one violation, severity critical). -/
def failingOnly : ResultDict :=
  { rule_id := "R-1", passed := false, violations := ["v"], warnings := [],
    evidence := [], severity := "critical" }

/-- A failing result with one critical violation. -/
def criticalResult : ResultDict :=
  { rule_id := "R-CRIT", passed := false, violations := ["v1"], warnings := [],
    evidence := [], severity := "critical" }

/-- A failing result with one high violation. -/
def highResult : ResultDict :=
  { rule_id := "R-HIGH", passed := false, violations := ["v2"], warnings := [],
    evidence := [], severity := "high" }

/-- A failing result carrying two violations under one rule. -/
def twoViolationResult : ResultDict :=
  { rule_id := "R-2", passed := false, violations := ["a", "b"], warnings := [],
    evidence := [], severity := "critical" }

/-- Ramp record with `rise_m=1.0`, `run_m=10.0` (slope 10%). -/
def ramp1 : RampData :=
  { id := some "R1", rise_m := some 1, run_m := some 10, width_cm := some 100,
    run_length_m := some 5, has_landing := some false, has_handrails := some true }

/-- Ramp record with `rise_m=0.3`, `run_m=5.0` (slope 6%). -/
def ramp2 : RampData :=
  { id := some "R2", rise_m := some (3/10), run_m := some 5, width_cm := some 100,
    run_length_m := some 5, has_landing := some false, has_handrails := some true }

/-- Ramp record given in centimeters only (100cm rise over 1000cm run). -/
def cmRamp : RampData := { rise_cm := some 100, run_cm := some 1000 }

/-- Ramp record with a zero run. -/
def zeroRunRamp : RampData := { rise_m := some 1, run_m := some 0 }

/-- Dataset whose only content is the steep ramp `ramp1`. -/
def rampDataset1 : Dataset := { building := { accessibility := { ramps := [ramp1] } } }

/-- Dataset whose only content is the compliant ramp `ramp2`. -/
def rampDataset2 : Dataset := { building := { accessibility := { ramps := [ramp2] } } }

/-- Dataset whose only content is a railing bar spacing of 20cm. -/
def spacingDataset : Dataset :=
  { building := { safety := { railings := { bar_spacing_cm := some 20 } } } }

theorem strLoad001_inv (d : Dataset) :
    (StrLoad001.validate d).passed = (StrLoad001.validate d).violations.isEmpty := rfl

theorem strFound002_inv (d : Dataset) :
    (StrFound002.validate d).passed = (StrFound002.validate d).violations.isEmpty := rfl

theorem strColumn003_inv (d : Dataset) :
    (StrColumn003.validate d).passed = (StrColumn003.validate d).violations.isEmpty := by
  unfold StrColumn003.validate
  dsimp only
  split <;> rfl

theorem strBeam004_inv (d : Dataset) :
    (StrBeam004.validate d).passed = (StrBeam004.validate d).violations.isEmpty := by
  unfold StrBeam004.validate
  dsimp only
  split <;> rfl

theorem strSlab005_inv (d : Dataset) :
    (StrSlab005.validate d).passed = (StrSlab005.validate d).violations.isEmpty := by
  unfold StrSlab005.validate
  dsimp only
  split <;> rfl

theorem zonSetback001_inv (d : Dataset) :
    (ZonSetback001.validate d).passed = (ZonSetback001.validate d).violations.isEmpty := rfl

theorem zonHeight002_inv (d : Dataset) :
    (ZonHeight002.validate d).passed = (ZonHeight002.validate d).violations.isEmpty := rfl

theorem zonCoverage003_inv (d : Dataset) :
    (ZonCoverage003.validate d).passed = (ZonCoverage003.validate d).violations.isEmpty := by
  unfold ZonCoverage003.validate
  dsimp only
  split <;> rfl

theorem zonFar004_inv (d : Dataset) :
    (ZonFar004.validate d).passed = (ZonFar004.validate d).violations.isEmpty := by
  unfold ZonFar004.validate
  dsimp only
  split <;> rfl

theorem zonParking005_inv (d : Dataset) :
    (ZonParking005.validate d).passed = (ZonParking005.validate d).violations.isEmpty := rfl

theorem safFire001_inv (d : Dataset) :
    (SafFire001.validate d).passed = (SafFire001.validate d).violations.isEmpty := rfl

theorem safEvac002_inv (d : Dataset) :
    (SafEvac002.validate d).passed = (SafEvac002.validate d).violations.isEmpty := rfl

theorem safStair003_inv (d : Dataset) :
    (SafStair003.validate d).passed = (SafStair003.validate d).violations.isEmpty := by
  unfold SafStair003.validate
  dsimp only
  split <;> rfl

theorem safRail004_inv (d : Dataset) :
    (SafRail004.validate d).passed = (SafRail004.validate d).violations.isEmpty := rfl

theorem safLight005_inv (d : Dataset) :
    (SafLight005.validate d).passed = (SafLight005.validate d).violations.isEmpty := rfl

theorem accRamp001_inv (d : Dataset) :
    (AccRamp001.validate d).passed = (AccRamp001.validate d).violations.isEmpty := by
  unfold AccRamp001.validate
  dsimp only
  split
  · cases d.building.has_level_changes.getD false <;> rfl
  · rfl

theorem accDoor002_inv (d : Dataset) :
    (AccDoor002.validate d).passed = (AccDoor002.validate d).violations.isEmpty := by
  unfold AccDoor002.validate
  dsimp only
  split <;> rfl

theorem accElev003_inv (d : Dataset) :
    (AccElev003.validate d).passed = (AccElev003.validate d).violations.isEmpty := by
  unfold AccElev003.validate
  dsimp only
  split <;> (try split) <;> rfl

theorem envEnergy001_inv (d : Dataset) :
    (EnvEnergy001.validate d).passed = (EnvEnergy001.validate d).violations.isEmpty := rfl

theorem envNoise002_inv (d : Dataset) :
    (EnvNoise002.validate d).passed = (EnvNoise002.validate d).violations.isEmpty := rfl

theorem strLoad001_rid (d : Dataset) :
    (StrLoad001.validate d).rule_id = "STR-LOAD-001" := rfl

theorem strFound002_rid (d : Dataset) :
    (StrFound002.validate d).rule_id = "STR-FOUND-002" := rfl

theorem strColumn003_rid (d : Dataset) :
    (StrColumn003.validate d).rule_id = "STR-COLUMN-003" := by
  unfold StrColumn003.validate
  dsimp only
  split <;> rfl

theorem strBeam004_rid (d : Dataset) :
    (StrBeam004.validate d).rule_id = "STR-BEAM-004" := by
  unfold StrBeam004.validate
  dsimp only
  split <;> rfl

theorem strSlab005_rid (d : Dataset) :
    (StrSlab005.validate d).rule_id = "STR-SLAB-005" := by
  unfold StrSlab005.validate
  dsimp only
  split <;> rfl

theorem zonSetback001_rid (d : Dataset) :
    (ZonSetback001.validate d).rule_id = "ZON-SETBACK-001" := rfl

theorem zonHeight002_rid (d : Dataset) :
    (ZonHeight002.validate d).rule_id = "ZON-HEIGHT-002" := rfl

theorem zonCoverage003_rid (d : Dataset) :
    (ZonCoverage003.validate d).rule_id = "ZON-COVERAGE-003" := by
  unfold ZonCoverage003.validate
  dsimp only
  split <;> rfl

theorem zonFar004_rid (d : Dataset) :
    (ZonFar004.validate d).rule_id = "ZON-FAR-004" := by
  unfold ZonFar004.validate
  dsimp only
  split <;> rfl

theorem zonParking005_rid (d : Dataset) :
    (ZonParking005.validate d).rule_id = "ZON-PARKING-005" := rfl

theorem safFire001_rid (d : Dataset) :
    (SafFire001.validate d).rule_id = "SAF-FIRE-001" := rfl

theorem safEvac002_rid (d : Dataset) :
    (SafEvac002.validate d).rule_id = "SAF-EVAC-002" := rfl

theorem safStair003_rid (d : Dataset) :
    (SafStair003.validate d).rule_id = "SAF-STAIR-003" := by
  unfold SafStair003.validate
  dsimp only
  split <;> rfl

theorem safRail004_rid (d : Dataset) :
    (SafRail004.validate d).rule_id = "SAF-RAIL-004" := rfl

theorem safLight005_rid (d : Dataset) :
    (SafLight005.validate d).rule_id = "SAF-LIGHT-005" := rfl

theorem accRamp001_rid (d : Dataset) :
    (AccRamp001.validate d).rule_id = "ACC-RAMP-001" := by
  unfold AccRamp001.validate
  dsimp only
  split <;> rfl

theorem accDoor002_rid (d : Dataset) :
    (AccDoor002.validate d).rule_id = "ACC-DOOR-002" := by
  unfold AccDoor002.validate
  dsimp only
  split <;> rfl

theorem accElev003_rid (d : Dataset) :
    (AccElev003.validate d).rule_id = "ACC-ELEV-003" := by
  unfold AccElev003.validate
  dsimp only
  split <;> (try split) <;> rfl

theorem envEnergy001_rid (d : Dataset) :
    (EnvEnergy001.validate d).rule_id = "ENV-ENERGY-001" := rfl

theorem envNoise002_rid (d : Dataset) :
    (EnvNoise002.validate d).rule_id = "ENV-NOISE-002" := rfl

theorem pyRound_nonneg (x : ℚ) (hx : 0 ≤ x) : 0 ≤ pyRound x := by
  have hf : (0 : ℤ) ≤ ⌊x⌋ := Int.floor_nonneg.mpr hx
  unfold pyRound
  split_ifs <;> omega

theorem pyRound_le (x : ℚ) (n : ℤ) (h : x ≤ (n : ℚ)) : pyRound x ≤ n := by
  have hf : ⌊x⌋ ≤ n := by
    have := Int.floor_le_floor h
    rwa [Int.floor_intCast] at this
  unfold pyRound
  split_ifs with h1 h2 h3
  · exact hf
  · have hfx : (⌊x⌋ : ℚ) < x := by linarith
    have : ⌊x⌋ < n := by
      have hlt : (⌊x⌋ : ℚ) < (n : ℚ) := lt_of_lt_of_le hfx h
      exact_mod_cast hlt
    omega
  · exact hf
  · have hfx : (⌊x⌋ : ℚ) < x := by
      have hge : 1/2 ≤ x - ⌊x⌋ := le_of_not_lt h1
      linarith
    have : ⌊x⌋ < n := by
      have hlt : (⌊x⌋ : ℚ) < (n : ℚ) := lt_of_lt_of_le hfx h
      exact_mod_cast hlt
    omega

theorem round2_nonneg (x : ℚ) (hx : 0 ≤ x) : 0 ≤ round2 x := by
  unfold round2
  have h := pyRound_nonneg (x * 100) (by positivity)
  positivity

theorem round2_le_100 (x : ℚ) (hx : x ≤ 100) : round2 x ≤ 100 := by
  unfold round2
  have h : pyRound (x * 100) ≤ (10000 : ℤ) := pyRound_le _ _ (by push_cast; linarith)
  rw [div_le_iff₀ (by norm_num : (0:ℚ) < 100)]
  calc (pyRound (x * 100) : ℚ) ≤ (10000 : ℚ) := by exact_mod_cast h
    _ = 100 * 100 := by norm_num

theorem round2_zero : round2 0 = 0 := by
  norm_num [round2, pyRound]

theorem infix_data_left (s t pat : String) (h : pat.data <:+: s.data) :
    pat.data <:+: (s ++ t).data := by
  rw [String.data_append]
  exact h.trans (List.IsPrefix.isInfix (List.prefix_append _ _))

/-- C1: for every dataset (the empty mapping included), every result entry
produced by `validate_all` has `passed = true` if and only if its violations
list is empty; the synthetic result substituted when a rule raises also
satisfies the invariant (it is failing and carries a nonempty violations
list). -/
theorem C1_passed_iff_no_violations :
    (∀ (d : Dataset), ∀ res ∈ (validate_all d).results,
      (res.passed = true ↔ res.violations = []))
    ∧ (∀ (rule_id e : String), (syntheticResult rule_id e).passed = false
        ∧ (syntheticResult rule_id e).violations ≠ []) := by
  constructor
  · intro d res hres
    simp only [validate_all, validateAllOver, load_rules, List.map_cons, List.map_nil,
      List.mem_cons, List.not_mem_nil, or_false] at hres
    rcases hres with rfl | rfl | rfl | rfl | rfl | rfl | rfl | rfl | rfl | rfl | rfl | rfl
      | rfl | rfl | rfl | rfl | rfl | rfl | rfl | rfl <;>
      simp only [dispatch, ValidationResult.toDict] <;>
      rw [List.isEmpty_iff.symm] <;>
      simp only [strLoad001_inv, strFound002_inv, strColumn003_inv, strBeam004_inv,
        strSlab005_inv, zonSetback001_inv, zonHeight002_inv, zonCoverage003_inv,
        zonFar004_inv, zonParking005_inv, safFire001_inv, safEvac002_inv, safStair003_inv,
        safRail004_inv, safLight005_inv, accRamp001_inv, accDoor002_inv, accElev003_inv,
        envEnergy001_inv, envNoise002_inv]
  · intro rule_id e
    exact ⟨rfl, by simp [syntheticResult]⟩

/-- Witness for C1: the invariant instantiated at the empty dataset and the
first catalog entry. -/
theorem C1_witness :
    ((StrLoad001.validate Dataset.empty).toDict.passed = true
      ↔ (StrLoad001.validate Dataset.empty).toDict.violations = []) :=
  C1_passed_iff_no_violations.1 Dataset.empty _ (List.mem_cons_self _ _)

/-- C2: the engine loops of `validate_all` and `validate_by_category` produce
one result per dispatched rule, in order (the batch is never aborted), and a
rule whose evaluation raises is replaced by the synthetic result: `passed`
false, severity `"critical"`, empty warnings and evidence, and exactly one
violation embedding the exception message. -/
theorem C2_exception_containment :
    (∀ (rules : List Rule) (d : Dataset),
      (validateAllOver rules d).results = rules.map (fun r => dispatch r d))
    ∧ (∀ (r : Rule) (d : Dataset) (e : String), r.validate d = .error e →
        dispatch r d =
          { rule_id := r.rule_id, passed := false,
            violations := ["Validation error: " ++ e], warnings := [],
            evidence := [], severity := "critical" })
    ∧ (∀ (rules : List Rule) (category : String) (d : Dataset) (c : RuleCategory),
        categoryFromString (pyLower category) = some c →
        (validateByCategoryOver rules category d).resultsOf =
          (rules.filter (fun r => r.category == c)).map (fun r => dispatch r d)) := by
  refine ⟨fun rules d => rfl, ?_, ?_⟩
  · intro r d e h
    simp [dispatch, h, syntheticResult]
  · intro rules category d c h
    simp [validateByCategoryOver, h, CategoryResponse.resultsOf]

/-- Witness for C2: a rule raising `"boom"` is substituted by the synthetic
critical failure, inside a batch that still yields a result for the healthy
rule after it. -/
theorem C2_witness :
    dispatch badRule Dataset.empty =
      { rule_id := "BAD-RULE", passed := false,
        violations := ["Validation error: boom"], warnings := [],
        evidence := [], severity := "critical" }
    ∧ (validateAllOver [badRule, ⟨"SAF-RAIL-004", .safety, .critical,
        fun d => .ok (SafRail004.validate d)⟩] Dataset.empty).results.length = 2 := by
  constructor
  · have h := C2_exception_containment.2.1 badRule Dataset.empty "boom" rfl
    rw [h]
    decide
  · rw [C2_exception_containment.1]
    rfl

/-- C3 (counterexample): a list holding one failing result has
`pass_rate_percent = 0` while `total_rules = 1 ≠ 0`, so "pass rate equals 0
exactly when `total_rules` is 0" fails in the only-if direction. -/
theorem C3_counterexample :
    (generate_summary [failingOnly]).pass_rate_percent = 0
    ∧ (generate_summary [failingOnly]).total_rules ≠ 0 := by
  constructor
  · show round2 _ = 0
    norm_num [generate_summary, failingOnly, round2, pyRound]
  · simp [generate_summary]

/-- C3 (amended): for every list of results, `pass_rate_percent` equals
`total_passed/total_rules*100` rounded to 2 decimals (defined as 0 when
`total_rules = 0`, so no division by zero is attempted) and always lies in
`[0, 100]`; it is 0 when the result list is empty, but it can also be 0 for a
nonempty list in which no rule passed. -/
theorem C3_pass_rate :
    (∀ results : List ResultDict,
      (generate_summary results).pass_rate_percent =
        round2 (if 0 < results.length then
          ((generate_summary results).total_passed : ℚ) / (results.length : ℚ) * 100 else 0)
      ∧ 0 ≤ (generate_summary results).pass_rate_percent
      ∧ (generate_summary results).pass_rate_percent ≤ 100)
    ∧ (generate_summary []).pass_rate_percent = 0 := by
  constructor
  · intro results
    have hdef : (generate_summary results).pass_rate_percent =
        round2 (if 0 < results.length then
          ((generate_summary results).total_passed : ℚ) / (results.length : ℚ) * 100 else 0) := by
      simp only [generate_summary, gt_iff_lt]
    refine ⟨hdef, ?_, ?_⟩ <;> rw [hdef]
    · rcases Nat.eq_zero_or_pos results.length with h0 | hpos
      · rw [if_neg (by omega)]
        rw [round2_zero]
      · rw [if_pos hpos]
        apply round2_nonneg
        positivity
    · rcases Nat.eq_zero_or_pos results.length with h0 | hpos
      · rw [if_neg (by omega)]
        rw [round2_zero]; norm_num
      · rw [if_pos hpos]
        apply round2_le_100
        have hple : (generate_summary results).total_passed ≤ results.length :=
          List.length_filter_le _ _
        have hq : ((generate_summary results).total_passed : ℚ) / (results.length : ℚ) ≤ 1 := by
          rw [div_le_one (by exact_mod_cast hpos)]
          exact_mod_cast hple
        calc ((generate_summary results).total_passed : ℚ) / (results.length : ℚ) * 100
            ≤ 1 * 100 := by nlinarith
          _ = 100 := by norm_num
  · show round2 _ = 0
    norm_num [round2, pyRound]

/-- C4: evaluation is deterministic — with the engine state (its rule catalog)
threaded explicitly, a second `validate_all` call on the state left by the
first returns an identical response, and the results follow the fixed
registration order of rule ids. -/
theorem C4_deterministic_registration_order :
    ∀ d : Dataset,
      (validateAllStateful load_rules d).1 =
        (validateAllStateful (validateAllStateful load_rules d).2 d).1
      ∧ ((validateAllStateful load_rules d).1).results.map (fun r => r.rule_id) =
          registrationOrder := by
  intro d
  refine ⟨rfl, ?_⟩
  simp [validateAllStateful, validateAllOver, load_rules, dispatch,
    ValidationResult.toDict, registrationOrder,
    strLoad001_rid, strFound002_rid, strColumn003_rid, strBeam004_rid, strSlab005_rid,
    zonSetback001_rid, zonHeight002_rid, zonCoverage003_rid, zonFar004_rid,
    zonParking005_rid, safFire001_rid, safEvac002_rid, safStair003_rid, safRail004_rid,
    safLight005_rid, accRamp001_rid, accDoor002_rid, accElev003_rid, envEnergy001_rid,
    envNoise002_rid]

/-- C5: `validate_by_category "structural"` evaluates exactly the five
structural catalog rules (summary `total_rules = 5`), while an unknown
category string such as `"nonsense"` yields the `{error, valid_categories}`
payload (no exception), naming the invalid value, with 5 valid categories. -/
theorem C5_validate_by_category :
    ∀ d : Dataset,
      (validate_by_category "structural" d).resultsOf =
        (load_rules.filter (fun r => r.category == RuleCategory.structural)).map
          (fun r => dispatch r d)
      ∧ (validate_by_category "structural" d).resultsOf.map (fun r => r.rule_id) =
          ["STR-LOAD-001", "STR-FOUND-002", "STR-COLUMN-003", "STR-BEAM-004", "STR-SLAB-005"]
      ∧ (validate_by_category "structural" d).summaryOf.total_rules = 5
      ∧ (validate_by_category "structural" d).isError = false
      ∧ validate_by_category "nonsense" d =
          CategoryResponse.invalid "Invalid category: nonsense" validCategories
      ∧ validCategories.length = 5 := by
  intro d
  refine ⟨rfl, ?_, rfl, rfl, ?_, rfl⟩
  · have h1 : (validate_by_category "structural" d).resultsOf =
        (load_rules.filter (fun r => r.category == RuleCategory.structural)).map
          (fun r => dispatch r d) := rfl
    have hf : load_rules.filter (fun r => r.category == RuleCategory.structural) =
        load_rules.take 5 := rfl
    rw [h1, hf]
    simp [load_rules, dispatch, ValidationResult.toDict,
      strLoad001_rid, strFound002_rid, strColumn003_rid, strBeam004_rid, strSlab005_rid]
  · simp [validate_by_category, validateByCategoryOver, categoryFromString, pyLower, lcChar]

/-- C6: `total_severity` is a sum with one addend per individual violation
entry (weights critical=100, high=75, medium=50, low=25, unknown=0); a batch
whose flattened violation list holds exactly two entries with severities
critical and high scores 175 (and one rule carrying two critical violations
scores 200, two addends for one rule); `has_critical_violations` holds iff
some violation entry's severity is critical. -/
theorem C6_severity_scorer :
    (∀ results : List ResultDict,
      totalSeverity results =
        ((allViolations results).map (fun v => lookupD severityScores v.severity 0)).sum)
    ∧ (∀ results : List ResultDict,
        hasCriticalViolations results = true ↔
          ∃ v ∈ allViolations results, v.severity = "critical")
    ∧ (allViolations [criticalResult, highResult]).length = 2
    ∧ totalSeverity [criticalResult, highResult] = 175
    ∧ totalSeverity [twoViolationResult] = 200
    ∧ hasCriticalViolations [criticalResult, highResult] = true
    ∧ hasCriticalViolations [highResult] = false := by
  refine ⟨fun results => rfl, ?_, ?_, ?_, ?_, ?_, ?_⟩
  · intro results
    simp [hasCriticalViolations, List.any_eq_true]
  · decide
  · decide
  · decide
  · decide
  · decide

/-- C7: `validate_all` on the empty dataset reports `total_rules = 20` over
the fixed catalog (5 structural, 5 zoning, 5 safety, 3 accessibility, 2
environmental) and `total_failed > 0`: defaulted zeros fail checks (e.g. the
dead-load minimum of STR-LOAD-001). -/
theorem C7_empty_dataset_summary :
    (validate_all Dataset.empty).summary.total_rules = 20
    ∧ 0 < (validate_all Dataset.empty).summary.total_failed
    ∧ (load_rules.filter (fun r => r.category == RuleCategory.structural)).length = 5
    ∧ (load_rules.filter (fun r => r.category == RuleCategory.zoning)).length = 5
    ∧ (load_rules.filter (fun r => r.category == RuleCategory.safety)).length = 5
    ∧ (load_rules.filter (fun r => r.category == RuleCategory.accessibility)).length = 3
    ∧ (load_rules.filter (fun r => r.category == RuleCategory.environmental)).length = 2 := by
  refine ⟨rfl, ?_, rfl, rfl, rfl, rfl, rfl⟩
  have hfail : (StrLoad001.validate Dataset.empty).toDict.passed = false := by
    norm_num [StrLoad001.validate, ValidationResult.toDict, Dataset.empty, lookupD]
  have hmem : (StrLoad001.validate Dataset.empty).toDict ∈
      (validate_all Dataset.empty).results := List.mem_cons_self _ _
  have hlen : (validate_all Dataset.empty).results.length = 20 := rfl
  have hle := List.length_filter_le (fun r => r.passed) (validate_all Dataset.empty).results
  have hne : ((validate_all Dataset.empty).results.filter (fun r => r.passed)).length ≠
      (validate_all Dataset.empty).results.length := by
    intro hcontra
    have hall := List.filter_length_eq_length.mp hcontra
    have := hall _ hmem
    rw [hfail] at this
    exact Bool.false_ne_true this
  have hdef : (validate_all Dataset.empty).summary.total_failed =
      (validate_all Dataset.empty).results.length -
        ((validate_all Dataset.empty).results.filter (fun r => r.passed)).length := rfl
  rw [hdef]
  omega

/-- C8: whenever `plot.area_m2` is 0 (or absent, defaulting to 0), the
coverage rule ZON-COVERAGE-003 and the FAR rule ZON-FAR-004 each fail with
exactly the single violation "Plot area not provided", and their evidence
holds only the plot area — no coverage percent or FAR value is computed. -/
theorem C8_zero_plot_area (d : Dataset) (h : d.plot.area_m2.getD 0 = 0) :
    (ZonCoverage003.validate d).passed = false
    ∧ (ZonCoverage003.validate d).violations = ["Plot area not provided"]
    ∧ (ZonCoverage003.validate d).evidence.map Prod.fst = ["plot_area_m2"]
    ∧ "coverage_percent" ∉ (ZonCoverage003.validate d).evidence.map Prod.fst
    ∧ (ZonFar004.validate d).passed = false
    ∧ (ZonFar004.validate d).violations = ["Plot area not provided"]
    ∧ (ZonFar004.validate d).evidence.map Prod.fst = ["plot_area_m2"]
    ∧ "far" ∉ (ZonFar004.validate d).evidence.map Prod.fst := by
  simp [ZonCoverage003.validate, ZonFar004.validate, h]

/-- Witness for C8: the empty dataset has a defaulted-zero plot area and
triggers exactly the early "Plot area not provided" failure of both rules. -/
theorem C8_witness :
    (ZonCoverage003.validate Dataset.empty).passed = false
    ∧ (ZonCoverage003.validate Dataset.empty).violations = ["Plot area not provided"]
    ∧ (ZonCoverage003.validate Dataset.empty).evidence.map Prod.fst = ["plot_area_m2"]
    ∧ "coverage_percent" ∉ (ZonCoverage003.validate Dataset.empty).evidence.map Prod.fst
    ∧ (ZonFar004.validate Dataset.empty).passed = false
    ∧ (ZonFar004.validate Dataset.empty).violations = ["Plot area not provided"]
    ∧ (ZonFar004.validate Dataset.empty).evidence.map Prod.fst = ["plot_area_m2"]
    ∧ "far" ∉ (ZonFar004.validate Dataset.empty).evidence.map Prod.fst :=
  C8_zero_plot_area Dataset.empty rfl

theorem infix_of_cons {α : Type} {l₁ l₂ : List α} (a : α) (h : l₁ <:+: l₂) :
    l₁ <:+: a :: l₂ := by
  obtain ⟨s, t, rfl⟩ := h
  exact ⟨a :: s, t, rfl⟩

/-- C9: the ramp slope is rise/run×100 after normalizing meter or centimeter
inputs to meters, with the sentinel 100.0 for a zero run; `rise_m=1.0`,
`run_m=10.0` gives 10.0%, exceeding the 8.33% cap, so ACC-RAMP-001 emits a
violation mentioning "Slope" (and fails); `rise_m=0.3`, `run_m=5.0` gives
6.0%, which passes the slope check — with the remaining sub-checks compliant
the rule reports no violation at all. -/
theorem C9_ramp_slope :
    (∀ r : RampData,
      verify_ramp_slope r =
        (if r.run_m.getD (r.run_cm.getD 0 / 100) = 0 then 100.0
         else r.rise_m.getD (r.rise_cm.getD 0 / 100) /
           r.run_m.getD (r.run_cm.getD 0 / 100) * 100))
    ∧ verify_ramp_slope zeroRunRamp = 100
    ∧ verify_ramp_slope cmRamp = 10
    ∧ verify_ramp_slope ramp1 = 10
    ∧ verify_ramp_slope ramp1 > 8.33
    ∧ "Slope".data <:+: (((AccRamp001.validate rampDataset1).violations.headD "").data)
    ∧ (AccRamp001.validate rampDataset1).passed = false
    ∧ verify_ramp_slope ramp2 = 6
    ∧ verify_ramp_slope ramp2 ≤ 8.33
    ∧ (AccRamp001.validate rampDataset2).violations = []
    ∧ (AccRamp001.validate rampDataset2).passed = true := by
  refine ⟨fun r => rfl, ?_, ?_, ?_, ?_, ?_, ?_, ?_, ?_, ?_, ?_⟩
  · norm_num [verify_ramp_slope, zeroRunRamp]
  · norm_num [verify_ramp_slope, cmRamp]
  · norm_num [verify_ramp_slope, ramp1]
  · norm_num [verify_ramp_slope, ramp1]
  · norm_num [AccRamp001.validate, rampDataset1, ramp1, pyEnum, enumFrom, verify_ramp_slope]
    refine infix_of_cons _ (infix_of_cons _ (infix_of_cons _ (infix_of_cons _ ?_)))
    exact List.IsPrefix.isInfix ⟨_, rfl⟩
  · norm_num [AccRamp001.validate, rampDataset1, ramp1, pyEnum, enumFrom, verify_ramp_slope]
  · norm_num [verify_ramp_slope, ramp2]
  · norm_num [verify_ramp_slope, ramp2]
  · norm_num [AccRamp001.validate, rampDataset2, ramp2, pyEnum, enumFrom, verify_ramp_slope]
  · norm_num [AccRamp001.validate, rampDataset2, ramp2, pyEnum, enumFrom, verify_ramp_slope]

/-- C10: in SAF-RAIL-004 a balcony railing height, stair railing height, or
railing load capacity equal to 0 (the default for a missing key) produces no
violation — those sub-checks fire only for values strictly greater than 0, so
the only possible violations left are bar spacing and roof railing; in
particular the rule passes on the empty dataset with no violations. -/
theorem C10_rail_zero_defaults :
    (∀ d : Dataset,
      d.building.safety.railings.balcony_height_cm.getD 0 = 0 →
      d.building.safety.railings.stair_height_cm.getD 0 = 0 →
      d.building.safety.railings.load_capacity_kn.getD 0 = 0 →
      (SafRail004.validate d).violations =
        (if d.building.safety.railings.bar_spacing_cm.getD 0 > 12 then
          ["Railing bar spacing " ++ fmtQ (d.building.safety.railings.bar_spacing_cm.getD 0)
            ++ "cm exceeds maximum 12cm (SI 1142)"] else [])
        ++ (if d.building.has_roof_access.getD false
              ∧ ¬ d.building.safety.railings.has_roof_railing.getD false then
          ["Roof railing required for accessible roofs (SI 1142)"] else []))
    ∧ (SafRail004.validate Dataset.empty).passed = true
    ∧ (SafRail004.validate Dataset.empty).violations = [] := by
  refine ⟨?_, ?_, ?_⟩
  · intro d h1 h2 h3
    simp [SafRail004.validate, h1, h2, h3]
  · norm_num [SafRail004.validate, Dataset.empty]
  · norm_num [SafRail004.validate, Dataset.empty]

/-- Witness for C10: a dataset whose railings carry only a 20cm bar spacing
(balcony, stair and load capacity defaulted to 0) yields exactly the bar
spacing violation. -/
theorem C10_witness :
    (SafRail004.validate spacingDataset).violations =
      ["Railing bar spacing " ++ fmtQ 20 ++ "cm exceeds maximum 12cm (SI 1142)"] := by
  have h := C10_rail_zero_defaults.1 spacingDataset rfl rfl rfl
  rw [h]
  norm_num [spacingDataset]
